import Mathlib

/-!
# Steering policy attachment data source and DB system test helpers

A shallow embedding of

* `oci/dns_steering_policy_attachment_data_source.go`: the schema of the
  data source, the `DnsSteeringPolicyAttachmentDataSourceCrud` struct and its
  methods `VoidState`, `Get` and `SetData`;
* `oci/database_db_system_resource_test.go`: the poll predicate
  `dbWaitCondition`, the fetch operation `dbResponseFetchOperation`, the
  timeout `DBWaitConditionDuration`, the lifecycle state the tests expect, and
  the guard that skips a suppressed test.

Go pointers to strings are `Option String` (`none` is `nil`), a Go slice of
strings is a `List String` (the nil slice and the empty slice are both `[]`),
a Go function that can panic returns `Except Fault _`, and a Go `error` result
is an `Option GoError` (`none` is `nil`).  Objects the Go code mutates through
a pointer (`s.D`, `s.Res`, the client) are passed and returned explicitly.
-/

namespace OciProvider

/-! ## Go run-time values -/

/-- Run-time panics of the Go code that the embedding tracks. -/
inductive Fault where
  | nilDereference
  | typeAssertion
  deriving DecidableEq, Repr

/-- Go `error` value; `Option GoError` is the Go type `error`, with `none` for `nil`. -/
structure GoError where
  msg : String
  deriving DecidableEq, Repr

/-- Dereference of a Go pointer: `*p` panics on `nil`. -/
def deref {α : Type} : Option α → Except Fault α
  | some a => .ok a
  | none => .error Fault.nilDereference

/-! ## Terraform `helper/schema` -/

/-- The `schema.ValueType` enumeration. -/
inductive ValueType where
  | TypeInvalid
  | TypeBool
  | TypeInt
  | TypeFloat
  | TypeString
  | TypeList
  | TypeMap
  | TypeSet
  deriving DecidableEq, Repr

/-- The fields of `schema.Schema` that the data source sets; every other field
keeps its zero value.  `Elem` is the pointer to the element schema of a list. -/
inductive Schema where
  | mk (Typ : ValueType) (Required Optional Computed : Bool) (Elem : Option Schema)
  deriving Repr

namespace Schema

/-- Field `Type` of `schema.Schema`. -/
def Typ : Schema → ValueType
  | mk t _ _ _ _ => t

/-- Field `Required` of `schema.Schema`. -/
def Required : Schema → Bool
  | mk _ r _ _ _ => r

/-- Field `Optional` of `schema.Schema`. -/
def Optional : Schema → Bool
  | mk _ _ o _ _ => o

/-- Field `Computed` of `schema.Schema`. -/
def Computed : Schema → Bool
  | mk _ _ _ c _ => c

/-- Field `Elem` of `schema.Schema`. -/
def Elem : Schema → Option Schema
  | mk _ _ _ _ e => e

end Schema

/-- A value held under an attribute key of a `schema.ResourceData`: the dynamic
value behind the Go `interface{}` that `Set` takes and `GetOkExists` returns.
The attributes of this data source are strings and one list of strings. -/
inductive Value where
  | str (s : String)
  | strList (l : List String)
  deriving DecidableEq, Repr

/-- The Go type assertion `v.(string)`, which panics when the dynamic type of
`v` is not `string`. -/
def Value.assertString : Value → Except Fault String
  | .str s => .ok s
  | .strList _ => .error Fault.typeAssertion

/-- The part of `schema.ResourceData` the provider code touches: the resource
ID and the attribute values by key (`none`: the attribute is not set). -/
structure ResourceData where
  id : String
  attrs : String → Option Value

namespace ResourceData

/-- `d.SetId(v)`. -/
def SetId (d : ResourceData) (v : String) : ResourceData :=
  { d with id := v }

/-- `d.Id()`. -/
def Id (d : ResourceData) : String := d.id

/-- `d.Set(key, value)`; the callers in this file discard its error result. -/
def Set (d : ResourceData) (key : String) (value : Value) : ResourceData :=
  { d with attrs := fun k => if k = key then some value else d.attrs k }

/-- `d.GetOkExists(key)`: the value and whether the attribute is set; the
zero value comes with `false`. -/
def GetOkExists (d : ResourceData) (key : String) : Value × Bool :=
  match d.attrs key with
  | some v => (v, true)
  | none => (Value.str "", false)

/-- The attribute `key`, when set, holds a Go string: what the Terraform reader
yields for an attribute whose schema type is `TypeString`. -/
def holdsString (d : ResourceData) (key : String) : Bool :=
  match d.attrs key with
  | some (Value.strList _) => false
  | _ => true

end ResourceData

/-! ## The DNS part of the cloud SDK -/

/-- SDK `common.RetryPolicy`, identified by its attempt bound. -/
structure RetryPolicy where
  MaximumNumberAttempts : Nat
  deriving DecidableEq, Repr

/-- SDK `common.RequestMetadata`. -/
structure RequestMetadata where
  RetryPolicy : Option RetryPolicy
  deriving DecidableEq, Repr

/-- SDK `common.SDKTime`, a point in time. -/
structure SDKTime where
  unixNanos : Int
  deriving DecidableEq, Repr

/-- SDK `dns.GetSteeringPolicyAttachmentRequest`. -/
structure GetSteeringPolicyAttachmentRequest where
  SteeringPolicyAttachmentId : Option String
  IfNoneMatch : Option String
  IfModifiedSince : Option String
  OpcRequestId : Option String
  RequestMetadata : RequestMetadata
  deriving DecidableEq, Repr

/-- The zero value `oci_dns.GetSteeringPolicyAttachmentRequest{}`. -/
def GetSteeringPolicyAttachmentRequest.zero : GetSteeringPolicyAttachmentRequest :=
  { SteeringPolicyAttachmentId := none, IfNoneMatch := none, IfModifiedSince := none,
    OpcRequestId := none, RequestMetadata := { RetryPolicy := none } }

/-- SDK `dns.GetSteeringPolicyAttachmentResponse`: the embedded
`SteeringPolicyAttachment` body and the response headers (the raw HTTP
response is left out). -/
structure GetSteeringPolicyAttachmentResponse where
  Id : Option String
  CompartmentId : Option String
  DisplayName : Option String
  DomainName : Option String
  Rtypes : List String
  Self : Option String
  LifecycleState : String
  SteeringPolicyId : Option String
  TimeCreated : Option SDKTime
  ZoneId : Option String
  Etag : Option String
  OpcRequestId : Option String
  deriving DecidableEq, Repr

/-- SDK `dns.DnsClient` seen from the provider: how the service answers a
request given the requests sent before it, and the requests sent so far
(oldest first). -/
structure DnsClient where
  respond : List GetSteeringPolicyAttachmentRequest → GetSteeringPolicyAttachmentRequest →
    GetSteeringPolicyAttachmentResponse × Option GoError
  calls : List GetSteeringPolicyAttachmentRequest

/-- `client.GetSteeringPolicyAttachment(ctx, request)`: one call to the
service; the request is recorded in the client. -/
def DnsClient.GetSteeringPolicyAttachment (c : DnsClient)
    (request : GetSteeringPolicyAttachmentRequest) :
    DnsClient × GetSteeringPolicyAttachmentResponse × Option GoError :=
  ({ c with calls := c.calls ++ [request] }, c.respond c.calls request)

/-! ## `dns_steering_policy_attachment_data_source.go` -/

/-- The struct `DnsSteeringPolicyAttachmentDataSourceCrud`.  `D` and `Client`
are the objects behind the two pointers, which `readSingularDnsSteeringPolicyAttachment`
sets before any method runs; `Res` is `none` for the nil pointer. -/
structure DnsSteeringPolicyAttachmentDataSourceCrud where
  D : ResourceData
  Client : DnsClient
  Res : Option GetSteeringPolicyAttachmentResponse

namespace DnsSteeringPolicyAttachmentDataSourceCrud

/-- Method `VoidState`. -/
def VoidState (s : DnsSteeringPolicyAttachmentDataSourceCrud) :
    DnsSteeringPolicyAttachmentDataSourceCrud :=
  { s with D := s.D.SetId "" }

/-- Method `Get`.  `getRetryPolicy` is the provider helper of that name (not
in this file).  The result is the receiver after the call and the returned
error. -/
def Get (getRetryPolicy : Bool → String → Option RetryPolicy)
    (s : DnsSteeringPolicyAttachmentDataSourceCrud) :
    Except Fault (DnsSteeringPolicyAttachmentDataSourceCrud × Option GoError) := do
  let request := GetSteeringPolicyAttachmentRequest.zero
  let request ←
    match s.D.GetOkExists "steering_policy_attachment_id" with
    | (steeringPolicyAttachmentId, true) => do
      let tmp ← steeringPolicyAttachmentId.assertString
      pure { request with SteeringPolicyAttachmentId := some tmp }
    | (_, false) => pure request
  let request :=
    { request with RequestMetadata := { RetryPolicy := getRetryPolicy false "dns" } }
  let (client, response, err) := s.Client.GetSteeringPolicyAttachment request
  match err with
  | some e => pure ({ s with Client := client }, some e)
  | none => pure ({ s with Client := client, Res := some response }, none)

/-- Method `SetData`.  `timeString` is `SDKTime.String()`. -/
def SetData (timeString : SDKTime → String)
    (s : DnsSteeringPolicyAttachmentDataSourceCrud) :
    Except Fault (DnsSteeringPolicyAttachmentDataSourceCrud × Option GoError) :=
  match s.Res with
  | none => pure (s, none)
  | some res => do
    let id ← deref res.Id
    let d := s.D.SetId id
    let d := match res.CompartmentId with
      | some v => d.Set "compartment_id" (Value.str v)
      | none => d
    let d := match res.DisplayName with
      | some v => d.Set "display_name" (Value.str v)
      | none => d
    let d := match res.DomainName with
      | some v => d.Set "domain_name" (Value.str v)
      | none => d
    let d := d.Set "rtypes" (Value.strList res.Rtypes)
    let d := match res.Self with
      | some v => d.Set "self" (Value.str v)
      | none => d
    let d := d.Set "state" (Value.str res.LifecycleState)
    let d := match res.SteeringPolicyId with
      | some v => d.Set "steering_policy_id" (Value.str v)
      | none => d
    let d := match res.TimeCreated with
      | some t => d.Set "time_created" (Value.str (timeString t))
      | none => d
    let d := match res.ZoneId with
      | some v => d.Set "zone_id" (Value.str v)
      | none => d
    pure ({ s with D := d }, none)

end DnsSteeringPolicyAttachmentDataSourceCrud

/-! ## The database part of the cloud SDK -/

/-- SDK enum constant `database.BackupSummaryLifecycleStateActive`. -/
def BackupSummaryLifecycleStateActive : String := "ACTIVE"

/-- SDK `database.BackupSummary`: the identifying fields and the lifecycle
state (a string-typed enum). -/
structure BackupSummary where
  Id : Option String
  DatabaseId : Option String
  DisplayName : Option String
  LifecycleState : String
  deriving DecidableEq, Repr

/-- SDK `database.ListBackupsResponse`. -/
structure ListBackupsResponse where
  Items : List BackupSummary
  OpcNextPage : Option String
  OpcRequestId : Option String
  deriving DecidableEq, Repr

/-- SDK `database.ListBackupsRequest`. -/
structure ListBackupsRequest where
  DatabaseId : Option String
  CompartmentId : Option String
  Limit : Option Int
  Page : Option String
  OpcRequestId : Option String
  RequestMetadata : RequestMetadata
  deriving DecidableEq, Repr

/-- SDK `database.DatabaseClient` seen from the provider: how the service
answers a `ListBackups` request given the requests sent before it, and the
requests sent so far (oldest first). -/
structure DatabaseClient where
  respond : List ListBackupsRequest → ListBackupsRequest → ListBackupsResponse × Option GoError
  calls : List ListBackupsRequest

/-- `client.ListBackups(ctx, request)`: one call; the request is recorded in
the client. -/
def DatabaseClient.ListBackups (c : DatabaseClient) (request : ListBackupsRequest) :
    DatabaseClient × ListBackupsResponse × Option GoError :=
  ({ c with calls := c.calls ++ [request] }, c.respond c.calls request)

/-! ## The provider handle -/

/-- The provider handle `OracleClients`, of which the two files use
`dnsClient` and `databaseClient`. -/
structure OracleClients where
  dnsClient : DnsClient
  databaseClient : DatabaseClient


/-- The `interface{}` value Terraform hands to a CRUD function. -/
inductive ProviderMeta where
  | oracleClients (c : OracleClients)
  | other

/-- Type of the functions in the `Create`, `Read`, `Update` and `Delete`
fields of `schema.Resource`: the resource data after the call, and the error. -/
abbrev CrudFunc := ResourceData → ProviderMeta → Except Fault (ResourceData × Option GoError)

/-- The provider helper `ReadResource` (not in this file), as the functions
below take it: it runs on the crud struct and returns the error. -/
abbrev ReadResourceFunc :=
  DnsSteeringPolicyAttachmentDataSourceCrud →
    Except Fault (DnsSteeringPolicyAttachmentDataSourceCrud × Option GoError)

/-- Function `readSingularDnsSteeringPolicyAttachment`. -/
def readSingularDnsSteeringPolicyAttachment (ReadResource : ReadResourceFunc) : CrudFunc :=
  fun d m =>
    match m with
    | .oracleClients c => do
      let sync : DnsSteeringPolicyAttachmentDataSourceCrud :=
        { D := d, Client := c.dnsClient, Res := none }
      let (sync, err) ← ReadResource sync
      pure (sync.D, err)
    | .other => .error Fault.typeAssertion

/-- The fields of `schema.Resource` this file sets or leaves nil: the four
operations and the schema map (a Go map literal, as its list of entries). -/
structure Resource where
  Create : Option CrudFunc
  Read : Option CrudFunc
  Update : Option CrudFunc
  Delete : Option CrudFunc
  Schema : List (String × Schema)

/-- Function `DnsSteeringPolicyAttachmentDataSource`. -/
def DnsSteeringPolicyAttachmentDataSource (ReadResource : ReadResourceFunc) : Resource :=
  { Create := none
    Read := some (readSingularDnsSteeringPolicyAttachment ReadResource)
    Update := none
    Delete := none
    Schema :=
      [ ("steering_policy_attachment_id", Schema.mk .TypeString true false false none),
        ("compartment_id", Schema.mk .TypeString false false true none),
        ("display_name", Schema.mk .TypeString false false true none),
        ("domain_name", Schema.mk .TypeString false false true none),
        ("rtypes", Schema.mk .TypeList false false true
          (some (Schema.mk .TypeString false false false none))),
        ("self", Schema.mk .TypeString false false true none),
        ("state", Schema.mk .TypeString false false true none),
        ("steering_policy_id", Schema.mk .TypeString false false true none),
        ("time_created", Schema.mk .TypeString false false true none),
        ("zone_id", Schema.mk .TypeString false false true none) ] }

/-! ## `database_db_system_resource_test.go` -/

/-- The dynamic value of the interface field `Response` of
`OCIOperationResponse`: nil, a `ListBackupsResponse` value, a pointer to one,
or a value of another response type (named). -/
inductive OCIResponse where
  | nil
  | ListBackupsResponse (r : ListBackupsResponse)
  | ListBackupsResponsePtr (r : Option ListBackupsResponse)
  | other (typeName : String)
  deriving DecidableEq, Repr

/-- SDK `common.OCIOperationResponse`. -/
structure OCIOperationResponse where
  Response : OCIResponse
  Error : Option GoError
  AttemptNumber : Nat
  deriving DecidableEq, Repr

/-- Function `dbWaitCondition`. -/
def dbWaitCondition (response : OCIOperationResponse) : Bool :=
  match response.Response with
  | .ListBackupsResponse listBackupResponse =>
    if h : listBackupResponse.Items.length > 0 then
      listBackupResponse.Items[0].LifecycleState != BackupSummaryLifecycleStateActive
    else
      true
  | _ => false

/-- Function `dbResponseFetchOperation`: the client after the call, and the
returned error. -/
def dbResponseFetchOperation (client : OracleClients) (resourceId : Option String)
    (retryPolicy : Option RetryPolicy) : OracleClients × Option GoError :=
  let (databaseClient, _, err) :=
    client.databaseClient.ListBackups
      { DatabaseId := resourceId
        CompartmentId := none
        Limit := none
        Page := none
        OpcRequestId := none
        RequestMetadata := { RetryPolicy := retryPolicy } }
  ({ client with databaseClient := databaseClient }, err)

/-- Modelled from the spec: SDK enum constant
`database.DatabaseLifecycleStateAvailable`, declared in the SDK and not in the
source files.  The spec gives the state the tests assert as
`state == "AVAILABLE"` and names AVAILABLE as a lifecycle state, "an enumerated
status string returned by the cloud API". -/
def DatabaseLifecycleStateAvailable : String := "AVAILABLE"

/-- Modelled from the spec: SDK enum constant
`database.DbSystemLifecycleStateAvailable`, declared in the SDK and not in the
source files; the state the tests assert is `state == "AVAILABLE"`. -/
def DbSystemLifecycleStateAvailable : String := "AVAILABLE"

/-- Modelled from the spec: SDK enum constant
`database.DbHomeSummaryLifecycleStateAvailable`, declared in the SDK and not in
the source files; the state the tests assert is `state == "AVAILABLE"`. -/
def DbHomeSummaryLifecycleStateAvailable : String := "AVAILABLE"

/-- The test methods of `ResourceDatabaseDBSystemTestSuite`. -/
inductive DBSystemTest where
  | TestAccResourceDatabaseDBSystemFromBackup
  | TestAccResourceDatabaseDBSystem_basic
  | TestAccResourceDatabaseDBSystem_allBM
  | TestAccResourceDatabaseDBSystem_allVM
  | TestAccResourceDatabaseDBSystem_Exadata
  deriving DecidableEq, Repr

/-- The value each test passes to
`resource.TestCheckResourceAttr(s.ResourceName, "state", ...)`, the expected
`state` of the DB system resource. -/
def DBSystemTest.expectedState : DBSystemTest → String
  | .TestAccResourceDatabaseDBSystemFromBackup => DatabaseLifecycleStateAvailable
  | .TestAccResourceDatabaseDBSystem_basic => DatabaseLifecycleStateAvailable
  | .TestAccResourceDatabaseDBSystem_allBM => DbSystemLifecycleStateAvailable
  | .TestAccResourceDatabaseDBSystem_allVM => DbSystemLifecycleStateAvailable
  | .TestAccResourceDatabaseDBSystem_Exadata => DatabaseLifecycleStateAvailable

/-- Go `strings.Contains(s, substr)`: `substr` occurs in `s`, that is, it begins
one of the tails of `s`.  Strings are compared character by character. -/
def strings.Contains (s substr : String) : Bool :=
  s.data.tails.any fun t => substr.data.isPrefixOf t

/-- The guard at the head of each test method,
`if strings.Contains(getEnvSettingWithBlankDefault("suppressed_tests"), key)`
followed by `s.T().Skip(message)`.  `suppressed_tests` is the value that
`getEnvSettingWithBlankDefault("suppressed_tests")` returns (a provider helper
that is not in this file).  The result is the message the test is skipped
with, or `none` when the test goes on to `resource.Test`. -/
def DBSystemTest.skip (suppressed_tests : String) : DBSystemTest → Option String
  | .TestAccResourceDatabaseDBSystemFromBackup =>
    if strings.Contains suppressed_tests "DBSystem_basic" then
      some "Skipping subset dbsystem test."
    else none
  | .TestAccResourceDatabaseDBSystem_basic =>
    if strings.Contains suppressed_tests "DBSystem_basic" then
      some "Skipping subset dbsystem test."
    else none
  | .TestAccResourceDatabaseDBSystem_allBM =>
    if strings.Contains suppressed_tests "DBSystem_allBM" then
      some "Skipping BM test due to tenancy limits."
    else none
  | .TestAccResourceDatabaseDBSystem_allVM =>
    if strings.Contains suppressed_tests "DBSystem_allVM" then
      some "Skipping VM test due to tenancy limits."
    else none
  | .TestAccResourceDatabaseDBSystem_Exadata =>
    if strings.Contains suppressed_tests "DBSystem_Exadata" then
      some "Skipping suppressed DBSystem_Exadata"
    else none

/-- Go `time.Second`, in nanoseconds, the unit of `time.Duration`. -/
def time.Second : Nat := 1000000000

/-- Go `time.Minute`. -/
def time.Minute : Nat := 60 * time.Second

/-- The constant `DBWaitConditionDuration` of
`TestAccResourceDatabaseDBSystemFromBackup`. -/
def DBWaitConditionDuration : Nat := 20 * time.Minute

/-! ## Sample inputs -/

/-- A response in which every field is present. -/
def sampleResponse : GetSteeringPolicyAttachmentResponse :=
  { Id := some "ocid1.dnssteeringpolicyattachment.oc1..attachment"
    CompartmentId := some "ocid1.compartment.oc1..compartment"
    DisplayName := some "attachment"
    DomainName := some "example.com"
    Rtypes := ["A", "AAAA"]
    Self := some "https://dns.example/steeringPolicyAttachments/attachment"
    LifecycleState := "ACTIVE"
    SteeringPolicyId := some "ocid1.dnssteeringpolicy.oc1..policy"
    TimeCreated := some { unixNanos := 1546300800000000000 }
    ZoneId := some "ocid1.dns-zone.oc1..zone"
    Etag := some "etag-1"
    OpcRequestId := some "request-1" }

/-- A service that answers every request with `sampleResponse`. -/
def sampleClient : DnsClient :=
  { respond := fun _ _ => (sampleResponse, none), calls := [] }

/-- A service that fails every request with the same error. -/
def failingClient : DnsClient :=
  { respond := fun _ _ => ({ sampleResponse with Id := none }, some { msg := "404 NotFound" })
    calls := [] }

/-- Resource data of a configuration that sets the attachment id, with a
previous ID and a previous `state` value. -/
def sampleData : ResourceData :=
  { id := "previous-id"
    attrs := fun k =>
      if k = "steering_policy_attachment_id" then some (Value.str "ocid1.attachment")
      else if k = "state" then some (Value.str "CREATING")
      else none }

/-- Resource data with no ID and no attribute set. -/
def freshData : ResourceData :=
  { id := "", attrs := fun _ => none }

/-- A `ReadResource` that does nothing and reports no error. -/
def sampleReadResource : ReadResourceFunc :=
  fun sync => .ok (sync, none)

/-- A retry-policy helper. -/
def sampleRetryPolicy : Bool → String → Option RetryPolicy :=
  fun disableNotFoundRetries _ => some { MaximumNumberAttempts := if disableNotFoundRetries then 1 else 3 }

/-- A rendering of `SDKTime` values. -/
def sampleTimeString : SDKTime → String :=
  fun t => toString t.unixNanos

/-! ## Lemmas on `Get` -/

open DnsSteeringPolicyAttachmentDataSourceCrud

/-- `Get` on a configuration whose attribute is set to the string `v`. -/
theorem Get_of_set (getRetryPolicy : Bool → String → Option RetryPolicy)
    (s : DnsSteeringPolicyAttachmentDataSourceCrud) (v : String)
    (h : s.D.attrs "steering_policy_attachment_id" = some (Value.str v))
    (request : GetSteeringPolicyAttachmentRequest)
    (hreq : request =
      { SteeringPolicyAttachmentId := some v, IfNoneMatch := none,
        IfModifiedSince := none, OpcRequestId := none,
        RequestMetadata := { RetryPolicy := getRetryPolicy false "dns" } }) :
    Get getRetryPolicy s =
      match (s.Client.respond s.Client.calls request).2 with
      | some e =>
        .ok ({ s with Client := { s.Client with calls := s.Client.calls ++ [request] } }, some e)
      | none =>
        .ok ({ s with
                Client := { s.Client with calls := s.Client.calls ++ [request] },
                Res := some (s.Client.respond s.Client.calls request).1 }, none) := by
  subst hreq
  simp only [Get, ResourceData.GetOkExists, h, Value.assertString,
    DnsClient.GetSteeringPolicyAttachment, GetSteeringPolicyAttachmentRequest.zero]
  rfl

/-- `Get` on a configuration whose attribute is not set. -/
theorem Get_of_unset (getRetryPolicy : Bool → String → Option RetryPolicy)
    (s : DnsSteeringPolicyAttachmentDataSourceCrud)
    (h : s.D.attrs "steering_policy_attachment_id" = none)
    (request : GetSteeringPolicyAttachmentRequest)
    (hreq : request =
      { SteeringPolicyAttachmentId := none, IfNoneMatch := none,
        IfModifiedSince := none, OpcRequestId := none,
        RequestMetadata := { RetryPolicy := getRetryPolicy false "dns" } }) :
    Get getRetryPolicy s =
      match (s.Client.respond s.Client.calls request).2 with
      | some e =>
        .ok ({ s with Client := { s.Client with calls := s.Client.calls ++ [request] } }, some e)
      | none =>
        .ok ({ s with
                Client := { s.Client with calls := s.Client.calls ++ [request] },
                Res := some (s.Client.respond s.Client.calls request).1 }, none) := by
  subst hreq
  simp only [Get, ResourceData.GetOkExists, h,
    DnsClient.GetSteeringPolicyAttachment, GetSteeringPolicyAttachmentRequest.zero]
  rfl

/-- `Get` on a configuration whose attribute, when set, holds a string: it
sends one request and returns what the service answers. -/
theorem Get_of_holdsString (getRetryPolicy : Bool → String → Option RetryPolicy)
    (s : DnsSteeringPolicyAttachmentDataSourceCrud)
    (h : s.D.holdsString "steering_policy_attachment_id" = true) :
    ∃ request : GetSteeringPolicyAttachmentRequest,
      Get getRetryPolicy s =
        match (s.Client.respond s.Client.calls request).2 with
        | some e =>
          .ok ({ s with Client := { s.Client with calls := s.Client.calls ++ [request] } }, some e)
        | none =>
          .ok ({ s with
                  Client := { s.Client with calls := s.Client.calls ++ [request] },
                  Res := some (s.Client.respond s.Client.calls request).1 }, none) := by
  rcases hkey : s.D.attrs "steering_policy_attachment_id" with _ | v
  · exact ⟨_, Get_of_unset getRetryPolicy s hkey _ rfl⟩
  · cases v with
    | str v => exact ⟨_, Get_of_set getRetryPolicy s v hkey _ rfl⟩
    | strList l => simp [ResourceData.holdsString, hkey] at h

/-! ## Lemmas on `SetData` -/

/-- Reading an attribute after `Set`. -/
theorem ResourceData.Set_attrs (d : ResourceData) (key : String) (value : Value) (k : String) :
    (d.Set key value).attrs k = if k = key then some value else d.attrs k := rfl

/-- The ID after `Set`. -/
theorem ResourceData.Set_id (d : ResourceData) (key : String) (value : Value) :
    (d.Set key value).id = d.id := rfl

/-- Reading an attribute after a nil-guarded `Set` of a string pointer. -/
theorem ResourceData.guarded_Set_attrs (o : Option String) (d : ResourceData) (key k : String) :
    (match o with
      | some v => d.Set key (Value.str v)
      | none => d).attrs k =
    if k = key then (match o with | some v => some (Value.str v) | none => d.attrs k)
    else d.attrs k := by
  cases o <;> simp [ResourceData.Set_attrs]

/-- Reading an attribute after the nil-guarded `Set` of the creation time. -/
theorem ResourceData.guarded_Set_time_attrs (timeString : SDKTime → String) (o : Option SDKTime)
    (d : ResourceData) (key k : String) :
    (match o with
      | some t => d.Set key (Value.str (timeString t))
      | none => d).attrs k =
    if k = key then (match o with | some t => some (Value.str (timeString t)) | none => d.attrs k)
    else d.attrs k := by
  cases o <;> simp [ResourceData.Set_attrs]

/-- `SetData` without a response returns at once. -/
theorem SetData_of_nil (timeString : SDKTime → String)
    (s : DnsSteeringPolicyAttachmentDataSourceCrud) (h : s.Res = none) :
    SetData timeString s = .ok (s, none) := by
  obtain ⟨D, C, R⟩ := s
  simp only at h
  subst h
  rfl

/-- `SetData` on a response whose `Id` is nil panics at the dereference. -/
theorem SetData_of_nil_id (timeString : SDKTime → String)
    (s : DnsSteeringPolicyAttachmentDataSourceCrud) (res : GetSteeringPolicyAttachmentResponse)
    (h : s.Res = some res) (hid : res.Id = none) :
    SetData timeString s = .error Fault.nilDereference := by
  obtain ⟨D, C, R⟩ := s
  simp only at h
  subst h
  simp only [SetData, hid]
  rfl

/-- What `SetData` leaves behind on a response that carries an `Id`: it
returns nil, touches only `D`, sets the ID, and each attribute key holds the
value written last (or its previous value when nothing is written). -/
theorem SetData_of_id (timeString : SDKTime → String)
    (s : DnsSteeringPolicyAttachmentDataSourceCrud) (res : GetSteeringPolicyAttachmentResponse)
    (id : String) (h : s.Res = some res) (hid : res.Id = some id) :
    ∃ s', SetData timeString s = .ok (s', none) ∧ s'.Client = s.Client ∧ s'.Res = s.Res ∧
      s'.D.id = id ∧
      ∀ k, s'.D.attrs k =
        if k = "compartment_id" then
          (match res.CompartmentId with | some v => some (Value.str v) | none => s.D.attrs k)
        else if k = "display_name" then
          (match res.DisplayName with | some v => some (Value.str v) | none => s.D.attrs k)
        else if k = "domain_name" then
          (match res.DomainName with | some v => some (Value.str v) | none => s.D.attrs k)
        else if k = "rtypes" then some (Value.strList res.Rtypes)
        else if k = "self" then
          (match res.Self with | some v => some (Value.str v) | none => s.D.attrs k)
        else if k = "state" then some (Value.str res.LifecycleState)
        else if k = "steering_policy_id" then
          (match res.SteeringPolicyId with | some v => some (Value.str v) | none => s.D.attrs k)
        else if k = "time_created" then
          (match res.TimeCreated with
            | some t => some (Value.str (timeString t)) | none => s.D.attrs k)
        else if k = "zone_id" then
          (match res.ZoneId with | some v => some (Value.str v) | none => s.D.attrs k)
        else s.D.attrs k := by
  obtain ⟨D, C, R⟩ := s
  obtain ⟨i, c, dn, dom, rt, sf, st, sp, tc, z, et, rq⟩ := res
  simp only at h hid
  subst h hid
  refine ⟨?w, ?run, ?rest⟩
  case run => exact rfl
  case rest =>
    refine ⟨rfl, rfl, ?_, ?_⟩
    · cases c <;> cases dn <;> cases dom <;> cases sf <;> cases sp <;> cases tc <;> cases z <;> rfl
    · intro k
      simp only [ResourceData.guarded_Set_attrs, ResourceData.guarded_Set_time_attrs,
        ResourceData.Set_attrs, ResourceData.SetId]
      by_cases h1 : k = "compartment_id"
      · subst h1; simp
      by_cases h2 : k = "display_name"
      · subst h2; simp
      by_cases h3 : k = "domain_name"
      · subst h3; simp
      by_cases h4 : k = "rtypes"
      · subst h4; simp
      by_cases h5 : k = "self"
      · subst h5; simp
      by_cases h6 : k = "state"
      · subst h6; simp
      by_cases h7 : k = "steering_policy_id"
      · subst h7; simp
      by_cases h8 : k = "time_created"
      · subst h8; simp
      by_cases h9 : k = "zone_id"
      · subst h9; simp
      simp [h1, h2, h3, h4, h5, h6, h7, h8, h9]

/-! ## `Get`: errors, response and request -/

/-- C1: `Get` propagates the SDK error unchanged.  On every configuration whose
`steering_policy_attachment_id`, when set, is a string (the schema type of the
attribute), `Get` returns after one call of `GetSteeringPolicyAttachment`; the
error it returns is the error of that call (so it is non-nil exactly when the
call's error is), and when the call returns an error `e`, `Get` returns `e` and
leaves `s.Res` and `s.D` as they were. -/
theorem Get_propagates_sdk_error (getRetryPolicy : Bool → String → Option RetryPolicy)
    (s : DnsSteeringPolicyAttachmentDataSourceCrud)
    (h : s.D.holdsString "steering_policy_attachment_id" = true) :
    ∃ (request : GetSteeringPolicyAttachmentRequest)
      (s' : DnsSteeringPolicyAttachmentDataSourceCrud) (err : Option GoError),
      Get getRetryPolicy s = .ok (s', err) ∧
      s'.Client.calls = s.Client.calls ++ [request] ∧
      err = (s.Client.respond s.Client.calls request).2 ∧
      (err ≠ none ↔ (s.Client.respond s.Client.calls request).2 ≠ none) ∧
      (∀ e, (s.Client.respond s.Client.calls request).2 = some e →
        err = some e ∧ s'.Res = s.Res ∧ s'.D = s.D) := by
  obtain ⟨request, hget⟩ := Get_of_holdsString getRetryPolicy s h
  rcases hsdk : (s.Client.respond s.Client.calls request).2 with _ | e
  · rw [hsdk] at hget
    refine ⟨request, _, none, hget, rfl, hsdk.symm, by rw [hsdk], fun e he => ?_⟩
    rw [hsdk] at he
    cases he
  · rw [hsdk] at hget
    refine ⟨request, _, some e, hget, rfl, hsdk.symm, by rw [hsdk], fun e' he => ?_⟩
    rw [hsdk] at he
    cases he
    exact ⟨rfl, rfl, rfl⟩

/-- Witness of C1: a configuration with the attachment id set and a service
that fails every request. -/
theorem Get_propagates_sdk_error_witness :
    sampleData.holdsString "steering_policy_attachment_id" = true ∧
    ∃ (request : GetSteeringPolicyAttachmentRequest)
      (s' : DnsSteeringPolicyAttachmentDataSourceCrud) (err : Option GoError),
      Get sampleRetryPolicy { D := sampleData, Client := failingClient, Res := none } =
        .ok (s', err) ∧
      s'.Client.calls = failingClient.calls ++ [request] ∧
      err = (failingClient.respond failingClient.calls request).2 ∧
      (err ≠ none ↔ (failingClient.respond failingClient.calls request).2 ≠ none) ∧
      (∀ e, (failingClient.respond failingClient.calls request).2 = some e →
        err = some e ∧ s'.Res = none ∧ s'.D = sampleData) :=
  ⟨by decide,
    Get_propagates_sdk_error sampleRetryPolicy
      { D := sampleData, Client := failingClient, Res := none } (by decide)⟩

/-- C2: when the SDK call succeeds with response `r`, `Get` returns nil,
`s.Res` holds `r` afterwards and `s.D` is unchanged.  The configuration is one
whose `steering_policy_attachment_id`, when set, is a string. -/
theorem Get_stores_response (getRetryPolicy : Bool → String → Option RetryPolicy)
    (s : DnsSteeringPolicyAttachmentDataSourceCrud)
    (h : s.D.holdsString "steering_policy_attachment_id" = true) :
    ∃ (request : GetSteeringPolicyAttachmentRequest)
      (s' : DnsSteeringPolicyAttachmentDataSourceCrud) (err : Option GoError),
      Get getRetryPolicy s = .ok (s', err) ∧
      s'.Client.calls = s.Client.calls ++ [request] ∧
      (∀ r, s.Client.respond s.Client.calls request = (r, none) →
        err = none ∧ s'.Res = some r ∧ s'.D = s.D) := by
  obtain ⟨request, hget⟩ := Get_of_holdsString getRetryPolicy s h
  rcases hsdk : (s.Client.respond s.Client.calls request).2 with _ | e
  · rw [hsdk] at hget
    refine ⟨request, _, none, hget, rfl, fun r hr => ⟨rfl, ?_, rfl⟩⟩
    simp [hr]
  · rw [hsdk] at hget
    refine ⟨request, _, some e, hget, rfl, fun r hr => ?_⟩
    rw [hr] at hsdk
    cases hsdk

/-- Witness of C2: a configuration with the attachment id set and a service
that answers with `sampleResponse`. -/
theorem Get_stores_response_witness :
    sampleData.holdsString "steering_policy_attachment_id" = true ∧
    ∃ (request : GetSteeringPolicyAttachmentRequest)
      (s' : DnsSteeringPolicyAttachmentDataSourceCrud) (err : Option GoError),
      Get sampleRetryPolicy { D := sampleData, Client := sampleClient, Res := none } =
        .ok (s', err) ∧
      s'.Client.calls = sampleClient.calls ++ [request] ∧
      (∀ r, sampleClient.respond sampleClient.calls request = (r, none) →
        err = none ∧ s'.Res = some r ∧ s'.D = sampleData) :=
  ⟨by decide,
    Get_stores_response sampleRetryPolicy
      { D := sampleData, Client := sampleClient, Res := none } (by decide)⟩

/-- C3: `Get` maps the configuration to the SDK request.  When
`steering_policy_attachment_id` is set to a string `v`, the one request `Get`
sends has `SteeringPolicyAttachmentId` pointing to `v`; when the attribute is
not set the field is nil; every other request field is the same for all
configurations (nil, and the retry policy `getRetryPolicy(false, "dns")`). -/
theorem Get_maps_config_to_request (getRetryPolicy : Bool → String → Option RetryPolicy)
    (s : DnsSteeringPolicyAttachmentDataSourceCrud) :
    (∀ v, s.D.attrs "steering_policy_attachment_id" = some (Value.str v) →
      ∃ s' err, Get getRetryPolicy s = .ok (s', err) ∧
        s'.Client.calls = s.Client.calls ++
          [{ SteeringPolicyAttachmentId := some v, IfNoneMatch := none, IfModifiedSince := none,
             OpcRequestId := none,
             RequestMetadata := { RetryPolicy := getRetryPolicy false "dns" } }]) ∧
    (s.D.attrs "steering_policy_attachment_id" = none →
      ∃ s' err, Get getRetryPolicy s = .ok (s', err) ∧
        s'.Client.calls = s.Client.calls ++
          [{ SteeringPolicyAttachmentId := none, IfNoneMatch := none, IfModifiedSince := none,
             OpcRequestId := none,
             RequestMetadata := { RetryPolicy := getRetryPolicy false "dns" } }]) := by
  constructor
  · intro v hv
    have hget := Get_of_set getRetryPolicy s v hv _ rfl
    revert hget
    split <;> intro hget <;> exact ⟨_, _, hget, rfl⟩
  · intro hv
    have hget := Get_of_unset getRetryPolicy s hv _ rfl
    revert hget
    split <;> intro hget <;> exact ⟨_, _, hget, rfl⟩

/-- Witness of C3: a configuration that sets the attachment id, and one that
does not. -/
theorem Get_maps_config_to_request_witness :
    (sampleData.attrs "steering_policy_attachment_id" = some (Value.str "ocid1.attachment") ∧
      ∃ s' err,
        Get sampleRetryPolicy { D := sampleData, Client := sampleClient, Res := none } =
          .ok (s', err) ∧
        s'.Client.calls = sampleClient.calls ++
          [{ SteeringPolicyAttachmentId := some "ocid1.attachment", IfNoneMatch := none,
             IfModifiedSince := none, OpcRequestId := none,
             RequestMetadata := { RetryPolicy := sampleRetryPolicy false "dns" } }]) ∧
    (freshData.attrs "steering_policy_attachment_id" = none ∧
      ∃ s' err,
        Get sampleRetryPolicy { D := freshData, Client := sampleClient, Res := none } =
          .ok (s', err) ∧
        s'.Client.calls = sampleClient.calls ++
          [{ SteeringPolicyAttachmentId := none, IfNoneMatch := none,
             IfModifiedSince := none, OpcRequestId := none,
             RequestMetadata := { RetryPolicy := sampleRetryPolicy false "dns" } }]) :=
  ⟨⟨by decide,
      (Get_maps_config_to_request sampleRetryPolicy
        { D := sampleData, Client := sampleClient, Res := none }).1 "ocid1.attachment"
        (by decide)⟩,
    ⟨rfl,
      (Get_maps_config_to_request sampleRetryPolicy
        { D := freshData, Client := sampleClient, Res := none }).2 rfl⟩⟩

/-! ## `SetData`: the response written to the state -/

/-- C4: `SetData` maps the response back into the state.  For a non-nil
response whose `Id` is present, `SetData` returns nil and afterwards the
resource ID is the response `Id`; each of `compartment_id`, `display_name`,
`domain_name`, `self`, `steering_policy_id`, `zone_id` holds the value of its
response field when that field is present; `rtypes` holds `Rtypes`, `state`
holds `LifecycleState`, and `time_created` holds the string form of
`TimeCreated` when present. -/
theorem SetData_maps_response (timeString : SDKTime → String)
    (s : DnsSteeringPolicyAttachmentDataSourceCrud) (res : GetSteeringPolicyAttachmentResponse)
    (id : String) (h : s.Res = some res) (hid : res.Id = some id) :
    ∃ s', SetData timeString s = .ok (s', none) ∧
      s'.D.Id = id ∧
      (∀ v, res.CompartmentId = some v → s'.D.attrs "compartment_id" = some (Value.str v)) ∧
      (∀ v, res.DisplayName = some v → s'.D.attrs "display_name" = some (Value.str v)) ∧
      (∀ v, res.DomainName = some v → s'.D.attrs "domain_name" = some (Value.str v)) ∧
      (∀ v, res.Self = some v → s'.D.attrs "self" = some (Value.str v)) ∧
      (∀ v, res.SteeringPolicyId = some v →
        s'.D.attrs "steering_policy_id" = some (Value.str v)) ∧
      (∀ v, res.ZoneId = some v → s'.D.attrs "zone_id" = some (Value.str v)) ∧
      s'.D.attrs "rtypes" = some (Value.strList res.Rtypes) ∧
      s'.D.attrs "state" = some (Value.str res.LifecycleState) ∧
      (∀ t, res.TimeCreated = some t →
        s'.D.attrs "time_created" = some (Value.str (timeString t))) := by
  obtain ⟨s', hrun, -, -, hident, hattrs⟩ := SetData_of_id timeString s res id h hid
  refine ⟨s', hrun, hident, ?_, ?_, ?_, ?_, ?_, ?_, ?_, ?_, ?_⟩
  · intro v hv; rw [hattrs]; simp [hv]
  · intro v hv; rw [hattrs]; simp [hv]
  · intro v hv; rw [hattrs]; simp [hv]
  · intro v hv; rw [hattrs]; simp [hv]
  · intro v hv; rw [hattrs]; simp [hv]
  · intro v hv; rw [hattrs]; simp [hv]
  · rw [hattrs]; simp
  · rw [hattrs]; simp
  · intro t ht; rw [hattrs]; simp [ht]

/-- Witness of C4: `sampleResponse` over `sampleData`. -/
theorem SetData_maps_response_witness :
    ∃ s', SetData sampleTimeString
        { D := sampleData, Client := sampleClient, Res := some sampleResponse } = .ok (s', none) ∧
      s'.D.Id = "ocid1.dnssteeringpolicyattachment.oc1..attachment" ∧
      (∀ v, sampleResponse.CompartmentId = some v →
        s'.D.attrs "compartment_id" = some (Value.str v)) ∧
      (∀ v, sampleResponse.DisplayName = some v →
        s'.D.attrs "display_name" = some (Value.str v)) ∧
      (∀ v, sampleResponse.DomainName = some v →
        s'.D.attrs "domain_name" = some (Value.str v)) ∧
      (∀ v, sampleResponse.Self = some v → s'.D.attrs "self" = some (Value.str v)) ∧
      (∀ v, sampleResponse.SteeringPolicyId = some v →
        s'.D.attrs "steering_policy_id" = some (Value.str v)) ∧
      (∀ v, sampleResponse.ZoneId = some v → s'.D.attrs "zone_id" = some (Value.str v)) ∧
      s'.D.attrs "rtypes" = some (Value.strList sampleResponse.Rtypes) ∧
      s'.D.attrs "state" = some (Value.str sampleResponse.LifecycleState) ∧
      (∀ t, sampleResponse.TimeCreated = some t →
        s'.D.attrs "time_created" = some (Value.str (sampleTimeString t))) :=
  SetData_maps_response sampleTimeString
    { D := sampleData, Client := sampleClient, Res := some sampleResponse } sampleResponse
    "ocid1.dnssteeringpolicyattachment.oc1..attachment" rfl rfl

/-! ## The read pipeline -/

/-- C5: `Get` followed by `SetData` on a fresh crud struct (`Res` nil), for a
configuration whose `steering_policy_attachment_id`, when set, is a string.
`Get` returns after one SDK call.  If the call succeeds with a response `r`
whose `Id` is present, `Get` and `SetData` both return nil and the final
resource ID is `r.Id`.  If the call fails with `e`, `Get` returns `e`, and the
`SetData` that follows returns nil and changes nothing: the state, with its
ID, is the one before `Get`. -/
theorem read_pipeline (getRetryPolicy : Bool → String → Option RetryPolicy)
    (timeString : SDKTime → String) (s : DnsSteeringPolicyAttachmentDataSourceCrud)
    (h : s.D.holdsString "steering_policy_attachment_id" = true) (hres : s.Res = none) :
    ∃ (request : GetSteeringPolicyAttachmentRequest)
      (s1 : DnsSteeringPolicyAttachmentDataSourceCrud) (err : Option GoError),
      Get getRetryPolicy s = .ok (s1, err) ∧
      s1.Client.calls = s.Client.calls ++ [request] ∧
      (∀ r id, s.Client.respond s.Client.calls request = (r, none) → r.Id = some id →
        err = none ∧ ∃ s2, SetData timeString s1 = .ok (s2, none) ∧ s2.D.Id = id) ∧
      (∀ r e, s.Client.respond s.Client.calls request = (r, some e) →
        err = some e ∧ SetData timeString s1 = .ok (s1, none) ∧
          s1.D = s.D ∧ s1.D.Id = s.D.Id) := by
  obtain ⟨request, hget⟩ := Get_of_holdsString getRetryPolicy s h
  rcases hsdk : (s.Client.respond s.Client.calls request).2 with _ | e
  · rw [hsdk] at hget
    refine ⟨request, _, none, hget, rfl, fun r id hr hid => ⟨rfl, ?_⟩, fun r e hr => ?_⟩
    · obtain ⟨s2, hrun, -, -, hident, -⟩ :=
        SetData_of_id timeString
          { s with
              Client := { s.Client with calls := s.Client.calls ++ [request] },
              Res := some (s.Client.respond s.Client.calls request).1 }
          r id (by simp [hr]) hid
      exact ⟨s2, hrun, hident⟩
    · rw [hr] at hsdk
      cases hsdk
  · rw [hsdk] at hget
    refine ⟨request, _, some e, hget, rfl, fun r id hr hid => ?_, fun r e' hr => ?_⟩
    · rw [hr] at hsdk
      cases hsdk
    · rw [hr] at hsdk
      cases hsdk
      exact ⟨rfl, SetData_of_nil timeString _ hres, rfl, rfl⟩

/-- Witness of C5: the sample configuration on a fresh crud struct. -/
theorem read_pipeline_witness :
    sampleData.holdsString "steering_policy_attachment_id" = true ∧
    ∃ (request : GetSteeringPolicyAttachmentRequest)
      (s1 : DnsSteeringPolicyAttachmentDataSourceCrud) (err : Option GoError),
      Get sampleRetryPolicy { D := sampleData, Client := sampleClient, Res := none } =
        .ok (s1, err) ∧
      s1.Client.calls = sampleClient.calls ++ [request] ∧
      (∀ r id, sampleClient.respond sampleClient.calls request = (r, none) → r.Id = some id →
        err = none ∧ ∃ s2, SetData sampleTimeString s1 = .ok (s2, none) ∧ s2.D.Id = id) ∧
      (∀ r e, sampleClient.respond sampleClient.calls request = (r, some e) →
        err = some e ∧ SetData sampleTimeString s1 = .ok (s1, none) ∧
          s1.D = sampleData ∧ s1.D.Id = sampleData.Id) :=
  ⟨by decide,
    read_pipeline sampleRetryPolicy sampleTimeString
      { D := sampleData, Client := sampleClient, Res := none } (by decide) rfl⟩

/-! ## The schema -/

/-- C6: attribute names agree between the schema and `SetData`.  For a non-nil
response whose `Id` is present, every attribute whose value `SetData` changes
is declared in the schema of `DnsSteeringPolicyAttachmentDataSource` with
`Computed` set, and `steering_policy_attachment_id` keeps its value; starting
from a state with no attribute set and a response in which every field is
present, the attributes set after `SetData` are exactly the `Computed`
attributes of the schema. -/
theorem SetData_keys_agree_with_schema (ReadResource : ReadResourceFunc)
    (timeString : SDKTime → String) (s : DnsSteeringPolicyAttachmentDataSourceCrud)
    (res : GetSteeringPolicyAttachmentResponse) (id : String)
    (h : s.Res = some res) (hid : res.Id = some id) :
    ∃ s', SetData timeString s = .ok (s', none) ∧
      (∀ k, s'.D.attrs k ≠ s.D.attrs k →
        ∃ sch, (k, sch) ∈ (DnsSteeringPolicyAttachmentDataSource ReadResource).Schema ∧
          sch.Computed = true) ∧
      s'.D.attrs "steering_policy_attachment_id" = s.D.attrs "steering_policy_attachment_id" ∧
      ((∀ k, s.D.attrs k = none) →
        res.CompartmentId ≠ none → res.DisplayName ≠ none → res.DomainName ≠ none →
        res.Self ≠ none → res.SteeringPolicyId ≠ none → res.TimeCreated ≠ none →
        res.ZoneId ≠ none →
        ∀ k, s'.D.attrs k ≠ none ↔
          ∃ sch, (k, sch) ∈ (DnsSteeringPolicyAttachmentDataSource ReadResource).Schema ∧
            sch.Computed = true) := by
  obtain ⟨s', hrun, -, -, -, hattrs⟩ := SetData_of_id timeString s res id h hid
  have hcomputed : ∀ k, (∃ sch,
      (k, sch) ∈ (DnsSteeringPolicyAttachmentDataSource ReadResource).Schema ∧
        sch.Computed = true) ↔
      (k = "compartment_id" ∨ k = "display_name" ∨ k = "domain_name" ∨ k = "rtypes" ∨
        k = "self" ∨ k = "state" ∨ k = "steering_policy_id" ∨ k = "time_created" ∨
        k = "zone_id") := by
    intro k
    constructor
    · rintro ⟨sch, hmem, hc⟩
      simp only [DnsSteeringPolicyAttachmentDataSource, List.mem_cons, Prod.mk.injEq,
        List.mem_singleton, List.not_mem_nil, or_false] at hmem
      rcases hmem with ⟨-, rfl⟩ | ⟨hk, -⟩ | ⟨hk, -⟩ | ⟨hk, -⟩ | ⟨hk, -⟩ | ⟨hk, -⟩ | ⟨hk, -⟩ |
        ⟨hk, -⟩ | ⟨hk, -⟩ | ⟨hk, -⟩
      · simp [Schema.Computed] at hc
      all_goals simp [hk]
    · rintro (hk | hk | hk | hk | hk | hk | hk | hk | hk) <;> subst hk
      · exact ⟨Schema.mk .TypeString false false true none,
          by simp [DnsSteeringPolicyAttachmentDataSource], rfl⟩
      · exact ⟨Schema.mk .TypeString false false true none,
          by simp [DnsSteeringPolicyAttachmentDataSource], rfl⟩
      · exact ⟨Schema.mk .TypeString false false true none,
          by simp [DnsSteeringPolicyAttachmentDataSource], rfl⟩
      · exact ⟨Schema.mk .TypeList false false true
          (some (Schema.mk .TypeString false false false none)),
          by simp [DnsSteeringPolicyAttachmentDataSource], rfl⟩
      · exact ⟨Schema.mk .TypeString false false true none,
          by simp [DnsSteeringPolicyAttachmentDataSource], rfl⟩
      · exact ⟨Schema.mk .TypeString false false true none,
          by simp [DnsSteeringPolicyAttachmentDataSource], rfl⟩
      · exact ⟨Schema.mk .TypeString false false true none,
          by simp [DnsSteeringPolicyAttachmentDataSource], rfl⟩
      · exact ⟨Schema.mk .TypeString false false true none,
          by simp [DnsSteeringPolicyAttachmentDataSource], rfl⟩
      · exact ⟨Schema.mk .TypeString false false true none,
          by simp [DnsSteeringPolicyAttachmentDataSource], rfl⟩
  refine ⟨s', hrun, ?_, ?_, ?_⟩
  · intro k hk
    rw [hcomputed]
    by_contra hnot
    simp only [not_or] at hnot
    obtain ⟨h1, h2, h3, h4, h5, h6, h7, h8, h9⟩ := hnot
    apply hk
    rw [hattrs]
    simp [h1, h2, h3, h4, h5, h6, h7, h8, h9]
  · rw [hattrs]
    simp
  · intro hempty hc hdn hdom hsf hsp htc hz k
    rw [hcomputed, hattrs]
    obtain ⟨c, hc'⟩ := Option.ne_none_iff_exists'.mp hc
    obtain ⟨dn, hdn'⟩ := Option.ne_none_iff_exists'.mp hdn
    obtain ⟨dom, hdom'⟩ := Option.ne_none_iff_exists'.mp hdom
    obtain ⟨sf, hsf'⟩ := Option.ne_none_iff_exists'.mp hsf
    obtain ⟨sp, hsp'⟩ := Option.ne_none_iff_exists'.mp hsp
    obtain ⟨tc, htc'⟩ := Option.ne_none_iff_exists'.mp htc
    obtain ⟨z, hz'⟩ := Option.ne_none_iff_exists'.mp hz
    simp only [hc', hdn', hdom', hsf', hsp', htc', hz', hempty]
    by_cases h1 : k = "compartment_id"
    · simp [h1]
    by_cases h2 : k = "display_name"
    · simp [h2]
    by_cases h3 : k = "domain_name"
    · simp [h3]
    by_cases h4 : k = "rtypes"
    · simp [h4]
    by_cases h5 : k = "self"
    · simp [h5]
    by_cases h6 : k = "state"
    · simp [h6]
    by_cases h7 : k = "steering_policy_id"
    · simp [h7]
    by_cases h8 : k = "time_created"
    · simp [h8]
    by_cases h9 : k = "zone_id"
    · simp [h9]
    simp [h1, h2, h3, h4, h5, h6, h7, h8, h9]

/-- Witness of C6: `sampleResponse`, in which every field is present, over a
state with no attribute set. -/
theorem SetData_keys_agree_with_schema_witness :
    ∃ s', SetData sampleTimeString
        { D := freshData, Client := sampleClient, Res := some sampleResponse } = .ok (s', none) ∧
      (∀ k, s'.D.attrs k ≠ freshData.attrs k →
        ∃ sch, (k, sch) ∈ (DnsSteeringPolicyAttachmentDataSource sampleReadResource).Schema ∧
          sch.Computed = true) ∧
      s'.D.attrs "steering_policy_attachment_id" =
        freshData.attrs "steering_policy_attachment_id" ∧
      ((∀ k, freshData.attrs k = none) →
        sampleResponse.CompartmentId ≠ none → sampleResponse.DisplayName ≠ none →
        sampleResponse.DomainName ≠ none → sampleResponse.Self ≠ none →
        sampleResponse.SteeringPolicyId ≠ none → sampleResponse.TimeCreated ≠ none →
        sampleResponse.ZoneId ≠ none →
        ∀ k, s'.D.attrs k ≠ none ↔
          ∃ sch, (k, sch) ∈ (DnsSteeringPolicyAttachmentDataSource sampleReadResource).Schema ∧
            sch.Computed = true) :=
  SetData_keys_agree_with_schema sampleReadResource sampleTimeString
    { D := freshData, Client := sampleClient, Res := some sampleResponse } sampleResponse
    "ocid1.dnssteeringpolicyattachment.oc1..attachment" rfl rfl

/-- C7: in the schema of `DnsSteeringPolicyAttachmentDataSource` every
attribute carries exactly one of the flags `Required`, `Optional`, `Computed`;
`steering_policy_attachment_id` is the only `Required` attribute and is a
string; the other nine attributes are `Computed`; none is `Optional`; every
attribute is a string except `rtypes`, which is a list whose element schema is
a string.  The schema has ten attributes, with distinct names. -/
theorem schema_flags_and_types (ReadResource : ReadResourceFunc) :
    (∀ p ∈ (DnsSteeringPolicyAttachmentDataSource ReadResource).Schema,
      p.2.Required.toNat + p.2.Optional.toNat + p.2.Computed.toNat = 1) ∧
    (∀ p ∈ (DnsSteeringPolicyAttachmentDataSource ReadResource).Schema,
      (p.2.Required = true ↔ p.1 = "steering_policy_attachment_id")) ∧
    (∀ p ∈ (DnsSteeringPolicyAttachmentDataSource ReadResource).Schema,
      (p.2.Computed = true ↔ p.1 ≠ "steering_policy_attachment_id")) ∧
    (∀ p ∈ (DnsSteeringPolicyAttachmentDataSource ReadResource).Schema,
      p.2.Optional = false) ∧
    (∀ p ∈ (DnsSteeringPolicyAttachmentDataSource ReadResource).Schema,
      (p.1 ≠ "rtypes" → p.2.Typ = ValueType.TypeString) ∧
      (p.1 = "rtypes" →
        p.2.Typ = ValueType.TypeList ∧
          p.2.Elem.map Schema.Typ = some ValueType.TypeString)) ∧
    ((DnsSteeringPolicyAttachmentDataSource ReadResource).Schema.map Prod.fst).Nodup ∧
    ((DnsSteeringPolicyAttachmentDataSource ReadResource).Schema.map Prod.fst).length = 10 ∧
    (((DnsSteeringPolicyAttachmentDataSource ReadResource).Schema.filter
      fun p => p.2.Computed).map Prod.fst).length = 9 ∧
    "steering_policy_attachment_id" ∈
      (DnsSteeringPolicyAttachmentDataSource ReadResource).Schema.map Prod.fst ∧
    "rtypes" ∈ (DnsSteeringPolicyAttachmentDataSource ReadResource).Schema.map Prod.fst := by
  simp only [DnsSteeringPolicyAttachmentDataSource]
  decide

/-- C8: the data source is read-only: the `schema.Resource` returned by
`DnsSteeringPolicyAttachmentDataSource` has `Read` set to
`readSingularDnsSteeringPolicyAttachment` and no `Create`, `Update` or
`Delete`. -/
theorem data_source_is_read_only (ReadResource : ReadResourceFunc) :
    (DnsSteeringPolicyAttachmentDataSource ReadResource).Read =
      some (readSingularDnsSteeringPolicyAttachment ReadResource) ∧
    (DnsSteeringPolicyAttachmentDataSource ReadResource).Create = none ∧
    (DnsSteeringPolicyAttachmentDataSource ReadResource).Update = none ∧
    (DnsSteeringPolicyAttachmentDataSource ReadResource).Delete = none :=
  ⟨rfl, rfl, rfl, rfl⟩

/-! ## `VoidState` -/

/-- C9: `VoidState` sets the resource ID to the empty string whatever the
prior state, and changes nothing else: every attribute, `Res` and `Client` are
as before. -/
theorem VoidState_clears_only_the_id (s : DnsSteeringPolicyAttachmentDataSourceCrud) :
    (VoidState s).D.Id = "" ∧
    (VoidState s).D.attrs = s.D.attrs ∧
    (VoidState s).Res = s.Res ∧
    (VoidState s).Client = s.Client :=
  ⟨rfl, rfl, rfl, rfl⟩

/-! ## `dbWaitCondition` -/

/-- C10: for a `ListBackupsResponse` with at least one item, `dbWaitCondition`
returns false exactly when the lifecycle state of the first item is `ACTIVE`,
and true for every other lifecycle state of the first item. -/
theorem dbWaitCondition_stops_at_active (listBackupResponse : ListBackupsResponse)
    (first : BackupSummary) (rest : List BackupSummary) (err : Option GoError) (attempt : Nat)
    (h : listBackupResponse.Items = first :: rest) :
    (dbWaitCondition
        { Response := OCIResponse.ListBackupsResponse listBackupResponse, Error := err,
          AttemptNumber := attempt } = false ↔
      first.LifecycleState = "ACTIVE") ∧
    (first.LifecycleState ≠ "ACTIVE" →
      dbWaitCondition
        { Response := OCIResponse.ListBackupsResponse listBackupResponse, Error := err,
          AttemptNumber := attempt } = true) := by
  obtain ⟨items, page, req⟩ := listBackupResponse
  simp only at h
  subst h
  simp [dbWaitCondition, BackupSummaryLifecycleStateActive]

/-- Witness of C10: one backup that is still being created, followed by an
active one. -/
theorem dbWaitCondition_stops_at_active_witness :
    (dbWaitCondition
        { Response := OCIResponse.ListBackupsResponse
            { Items :=
                [{ Id := some "b1", DatabaseId := some "db", DisplayName := none,
                   LifecycleState := "CREATING" },
                 { Id := some "b0", DatabaseId := some "db", DisplayName := none,
                   LifecycleState := "ACTIVE" }],
              OpcNextPage := none, OpcRequestId := none },
          Error := none, AttemptNumber := 1 } = false ↔
      "CREATING" = "ACTIVE") ∧
    ("CREATING" ≠ "ACTIVE" →
      dbWaitCondition
        { Response := OCIResponse.ListBackupsResponse
            { Items :=
                [{ Id := some "b1", DatabaseId := some "db", DisplayName := none,
                   LifecycleState := "CREATING" },
                 { Id := some "b0", DatabaseId := some "db", DisplayName := none,
                   LifecycleState := "ACTIVE" }],
              OpcNextPage := none, OpcRequestId := none },
          Error := none, AttemptNumber := 1 } = true) :=
  dbWaitCondition_stops_at_active
    { Items :=
        [{ Id := some "b1", DatabaseId := some "db", DisplayName := none,
           LifecycleState := "CREATING" },
         { Id := some "b0", DatabaseId := some "db", DisplayName := none,
           LifecycleState := "ACTIVE" }],
      OpcNextPage := none, OpcRequestId := none }
    { Id := some "b1", DatabaseId := some "db", DisplayName := none,
      LifecycleState := "CREATING" }
    [{ Id := some "b0", DatabaseId := some "db", DisplayName := none,
       LifecycleState := "ACTIVE" }]
    none 1 rfl

/-! ## `Get`: the retry policy -/

/-- C19: `Get` retries per a fixed policy.  On every configuration whose
`steering_policy_attachment_id`, when set, is a string, `Get` calls
`GetSteeringPolicyAttachment` exactly once (the client has one more request
recorded than before, and nothing else happens around the call), and the
request carries `RequestMetadata.RetryPolicy = getRetryPolicy(false, "dns")`
whatever the attribute values are. -/
theorem Get_calls_once_with_fixed_policy (getRetryPolicy : Bool → String → Option RetryPolicy)
    (s : DnsSteeringPolicyAttachmentDataSourceCrud)
    (h : s.D.holdsString "steering_policy_attachment_id" = true) :
    ∃ (request : GetSteeringPolicyAttachmentRequest)
      (s' : DnsSteeringPolicyAttachmentDataSourceCrud) (err : Option GoError),
      Get getRetryPolicy s = .ok (s', err) ∧
      s'.Client.calls = s.Client.calls ++ [request] ∧
      s'.Client.calls.length = s.Client.calls.length + 1 ∧
      s'.Client.respond = s.Client.respond ∧
      request.RequestMetadata.RetryPolicy = getRetryPolicy false "dns" ∧
      err = (s.Client.respond s.Client.calls request).2 := by
  rcases hkey : s.D.attrs "steering_policy_attachment_id" with _ | v
  · have hget := Get_of_unset getRetryPolicy s hkey _ rfl
    revert hget
    split <;> intro hget
    · exact ⟨_, _, _, hget, rfl, by simp, rfl, rfl, by simp [*]⟩
    · exact ⟨_, _, _, hget, rfl, by simp, rfl, rfl, by simp [*]⟩
  · cases v with
    | str v =>
      have hget := Get_of_set getRetryPolicy s v hkey _ rfl
      revert hget
      split <;> intro hget
      · exact ⟨_, _, _, hget, rfl, by simp, rfl, rfl, by simp [*]⟩
      · exact ⟨_, _, _, hget, rfl, by simp, rfl, rfl, by simp [*]⟩
    | strList l => simp [ResourceData.holdsString, hkey] at h

/-- Witness of C19: the sample configuration and a service that answers. -/
theorem Get_calls_once_with_fixed_policy_witness :
    sampleData.holdsString "steering_policy_attachment_id" = true ∧
    ∃ (request : GetSteeringPolicyAttachmentRequest)
      (s' : DnsSteeringPolicyAttachmentDataSourceCrud) (err : Option GoError),
      Get sampleRetryPolicy { D := sampleData, Client := sampleClient, Res := none } =
        .ok (s', err) ∧
      s'.Client.calls = sampleClient.calls ++ [request] ∧
      s'.Client.calls.length = sampleClient.calls.length + 1 ∧
      s'.Client.respond = sampleClient.respond ∧
      request.RequestMetadata.RetryPolicy = sampleRetryPolicy false "dns" ∧
      err = (sampleClient.respond sampleClient.calls request).2 :=
  ⟨by decide,
    Get_calls_once_with_fixed_policy sampleRetryPolicy
      { D := sampleData, Client := sampleClient, Res := none } (by decide)⟩

/-! ## `SetData`: frame -/

/-- C20: `SetData` never clears an attribute because a pointer field is
absent.  For a non-nil response with `Id` present, each of `compartment_id`,
`display_name`, `domain_name`, `self`, `steering_policy_id`, `time_created`,
`zone_id` whose response field is nil has the same value after `SetData` as
before it. -/
theorem SetData_keeps_attribute_of_nil_field (timeString : SDKTime → String)
    (s : DnsSteeringPolicyAttachmentDataSourceCrud) (res : GetSteeringPolicyAttachmentResponse)
    (id : String) (h : s.Res = some res) (hid : res.Id = some id) :
    ∃ s', SetData timeString s = .ok (s', none) ∧
      (res.CompartmentId = none → s'.D.attrs "compartment_id" = s.D.attrs "compartment_id") ∧
      (res.DisplayName = none → s'.D.attrs "display_name" = s.D.attrs "display_name") ∧
      (res.DomainName = none → s'.D.attrs "domain_name" = s.D.attrs "domain_name") ∧
      (res.Self = none → s'.D.attrs "self" = s.D.attrs "self") ∧
      (res.SteeringPolicyId = none →
        s'.D.attrs "steering_policy_id" = s.D.attrs "steering_policy_id") ∧
      (res.TimeCreated = none → s'.D.attrs "time_created" = s.D.attrs "time_created") ∧
      (res.ZoneId = none → s'.D.attrs "zone_id" = s.D.attrs "zone_id") := by
  obtain ⟨s', hrun, -, -, -, hattrs⟩ := SetData_of_id timeString s res id h hid
  refine ⟨s', hrun, ?_, ?_, ?_, ?_, ?_, ?_, ?_⟩ <;> intro hnil <;> rw [hattrs] <;> simp [hnil]

/-- Witness of C20: a response with only `Id` present, over `sampleData`, whose
`state` is overwritten and whose other attributes stay. -/
theorem SetData_keeps_attribute_of_nil_field_witness :
    ∃ s', SetData sampleTimeString
        { D := sampleData, Client := sampleClient,
          Res := some
            { Id := some "ocid1.attachment", CompartmentId := none, DisplayName := none,
              DomainName := none, Rtypes := [], Self := none, LifecycleState := "",
              SteeringPolicyId := none, TimeCreated := none, ZoneId := none, Etag := none,
              OpcRequestId := none } } = .ok (s', none) ∧
      ((none : Option String) = none →
        s'.D.attrs "compartment_id" = sampleData.attrs "compartment_id") ∧
      ((none : Option String) = none →
        s'.D.attrs "display_name" = sampleData.attrs "display_name") ∧
      ((none : Option String) = none →
        s'.D.attrs "domain_name" = sampleData.attrs "domain_name") ∧
      ((none : Option String) = none → s'.D.attrs "self" = sampleData.attrs "self") ∧
      ((none : Option String) = none →
        s'.D.attrs "steering_policy_id" = sampleData.attrs "steering_policy_id") ∧
      ((none : Option SDKTime) = none →
        s'.D.attrs "time_created" = sampleData.attrs "time_created") ∧
      ((none : Option String) = none → s'.D.attrs "zone_id" = sampleData.attrs "zone_id") :=
  SetData_keeps_attribute_of_nil_field sampleTimeString
    { D := sampleData, Client := sampleClient,
      Res := some
        { Id := some "ocid1.attachment", CompartmentId := none, DisplayName := none,
          DomainName := none, Rtypes := [], Self := none, LifecycleState := "",
          SteeringPolicyId := none, TimeCreated := none, ZoneId := none, Etag := none,
          OpcRequestId := none } }
    _ "ocid1.attachment" rfl rfl

/-- The state after `SetData` is a function of the prior state and the
response: the ID is the response `Id`, and each attribute depends on the prior
value and on the one response field mapped to it. -/
theorem SetData_depends_fieldwise (timeString : SDKTime → String)
    (D : ResourceData) (client1 client2 : DnsClient)
    (r1 r2 : GetSteeringPolicyAttachmentResponse) (id1 id2 : String)
    (hid1 : r1.Id = some id1) (hid2 : r2.Id = some id2) :
    ∃ s1 s2,
      SetData timeString { D := D, Client := client1, Res := some r1 } = .ok (s1, none) ∧
      SetData timeString { D := D, Client := client2, Res := some r2 } = .ok (s2, none) ∧
      s1.D.Id = id1 ∧ s2.D.Id = id2 ∧
      ∀ k,
        (k = "compartment_id" → r1.CompartmentId = r2.CompartmentId) →
        (k = "display_name" → r1.DisplayName = r2.DisplayName) →
        (k = "domain_name" → r1.DomainName = r2.DomainName) →
        (k = "rtypes" → r1.Rtypes = r2.Rtypes) →
        (k = "self" → r1.Self = r2.Self) →
        (k = "state" → r1.LifecycleState = r2.LifecycleState) →
        (k = "steering_policy_id" → r1.SteeringPolicyId = r2.SteeringPolicyId) →
        (k = "time_created" → r1.TimeCreated = r2.TimeCreated) →
        (k = "zone_id" → r1.ZoneId = r2.ZoneId) →
        s2.D.attrs k = s1.D.attrs k := by
  obtain ⟨s1, hrun1, -, -, hident1, hattrs1⟩ :=
    SetData_of_id timeString { D := D, Client := client1, Res := some r1 } r1 id1 rfl hid1
  obtain ⟨s2, hrun2, -, -, hident2, hattrs2⟩ :=
    SetData_of_id timeString { D := D, Client := client2, Res := some r2 } r2 id2 rfl hid2
  refine ⟨s1, s2, hrun1, hrun2, hident1, hident2, ?_⟩
  intro k h1 h2 h3 h4 h5 h6 h7 h8 h9
  rw [hattrs1, hattrs2]
  by_cases e1 : k = "compartment_id"
  · simp [e1, h1 e1]
  by_cases e2 : k = "display_name"
  · simp [e2, h2 e2]
  by_cases e3 : k = "domain_name"
  · simp [e3, h3 e3]
  by_cases e4 : k = "rtypes"
  · simp [e4, h4 e4]
  by_cases e5 : k = "self"
  · simp [e5, h5 e5]
  by_cases e6 : k = "state"
  · simp [e6, h6 e6]
  by_cases e7 : k = "steering_policy_id"
  · simp [e7, h7 e7]
  by_cases e8 : k = "time_created"
  · simp [e8, h8 e8]
  by_cases e9 : k = "zone_id"
  · simp [e9, h9 e9]
  simp [e1, e2, e3, e4, e5, e6, e7, e8, e9]

/-! ## `SetData`: one attribute per field -/

/-- C17: `SetData` maps one attribute at a time.  Take any prior state and a
non-nil response with `Id` present, and change one field of the response (a
changed `Id` is present too).  The two states after `SetData` differ at most in
what is mapped from that field: changing `Id` leaves every attribute the same;
changing `CompartmentId`, `DisplayName`, `DomainName`, `Rtypes`, `Self`,
`LifecycleState`, `SteeringPolicyId`, `TimeCreated` or `ZoneId` leaves the ID
and every attribute other than `compartment_id`, `display_name`,
`domain_name`, `rtypes`, `self`, `state`, `steering_policy_id`, `time_created`
or `zone_id` respectively the same; changing a response header leaves the whole
state the same. -/
theorem SetData_one_attribute_per_field (timeString : SDKTime → String)
    (D : ResourceData) (client : DnsClient) (res : GetSteeringPolicyAttachmentResponse)
    (id : String) (hid : res.Id = some id) :
    ∃ s1, SetData timeString { D := D, Client := client, Res := some res } = .ok (s1, none) ∧
      (∀ x, ∃ s2, SetData timeString
          { D := D, Client := client, Res := some { res with Id := some x } } = .ok (s2, none) ∧
        s2.D.attrs = s1.D.attrs) ∧
      (∀ x, ∃ s2, SetData timeString
          { D := D, Client := client, Res := some { res with CompartmentId := x } } = .ok (s2, none) ∧
        s2.D.Id = s1.D.Id ∧ ∀ k, k ≠ "compartment_id" → s2.D.attrs k = s1.D.attrs k) ∧
      (∀ x, ∃ s2, SetData timeString
          { D := D, Client := client, Res := some { res with DisplayName := x } } = .ok (s2, none) ∧
        s2.D.Id = s1.D.Id ∧ ∀ k, k ≠ "display_name" → s2.D.attrs k = s1.D.attrs k) ∧
      (∀ x, ∃ s2, SetData timeString
          { D := D, Client := client, Res := some { res with DomainName := x } } = .ok (s2, none) ∧
        s2.D.Id = s1.D.Id ∧ ∀ k, k ≠ "domain_name" → s2.D.attrs k = s1.D.attrs k) ∧
      (∀ x, ∃ s2, SetData timeString
          { D := D, Client := client, Res := some { res with Rtypes := x } } = .ok (s2, none) ∧
        s2.D.Id = s1.D.Id ∧ ∀ k, k ≠ "rtypes" → s2.D.attrs k = s1.D.attrs k) ∧
      (∀ x, ∃ s2, SetData timeString
          { D := D, Client := client, Res := some { res with Self := x } } = .ok (s2, none) ∧
        s2.D.Id = s1.D.Id ∧ ∀ k, k ≠ "self" → s2.D.attrs k = s1.D.attrs k) ∧
      (∀ x, ∃ s2, SetData timeString
          { D := D, Client := client, Res := some { res with LifecycleState := x } } = .ok (s2, none) ∧
        s2.D.Id = s1.D.Id ∧ ∀ k, k ≠ "state" → s2.D.attrs k = s1.D.attrs k) ∧
      (∀ x, ∃ s2, SetData timeString
          { D := D, Client := client, Res := some { res with SteeringPolicyId := x } } = .ok (s2, none) ∧
        s2.D.Id = s1.D.Id ∧ ∀ k, k ≠ "steering_policy_id" → s2.D.attrs k = s1.D.attrs k) ∧
      (∀ x, ∃ s2, SetData timeString
          { D := D, Client := client, Res := some { res with TimeCreated := x } } = .ok (s2, none) ∧
        s2.D.Id = s1.D.Id ∧ ∀ k, k ≠ "time_created" → s2.D.attrs k = s1.D.attrs k) ∧
      (∀ x, ∃ s2, SetData timeString
          { D := D, Client := client, Res := some { res with ZoneId := x } } = .ok (s2, none) ∧
        s2.D.Id = s1.D.Id ∧ ∀ k, k ≠ "zone_id" → s2.D.attrs k = s1.D.attrs k) ∧
      (∀ x, ∃ s2, SetData timeString
          { D := D, Client := client, Res := some { res with Etag := x } } = .ok (s2, none) ∧
        s2.D.Id = s1.D.Id ∧ s2.D.attrs = s1.D.attrs) ∧
      (∀ x, ∃ s2, SetData timeString
          { D := D, Client := client, Res := some { res with OpcRequestId := x } } = .ok (s2, none) ∧
        s2.D.Id = s1.D.Id ∧ s2.D.attrs = s1.D.attrs) := by
  obtain ⟨s1, hrun1, -, -, hident1, -⟩ :=
    SetData_of_id timeString { D := D, Client := client, Res := some res } res id rfl hid
  have key : ∀ (r2 : GetSteeringPolicyAttachmentResponse) (id2 : String), r2.Id = some id2 →
      ∃ s2, SetData timeString { D := D, Client := client, Res := some r2 } = .ok (s2, none) ∧
        s2.D.Id = id2 ∧
        ∀ k,
          (k = "compartment_id" → res.CompartmentId = r2.CompartmentId) →
          (k = "display_name" → res.DisplayName = r2.DisplayName) →
          (k = "domain_name" → res.DomainName = r2.DomainName) →
          (k = "rtypes" → res.Rtypes = r2.Rtypes) →
          (k = "self" → res.Self = r2.Self) →
          (k = "state" → res.LifecycleState = r2.LifecycleState) →
          (k = "steering_policy_id" → res.SteeringPolicyId = r2.SteeringPolicyId) →
          (k = "time_created" → res.TimeCreated = r2.TimeCreated) →
          (k = "zone_id" → res.ZoneId = r2.ZoneId) →
          s2.D.attrs k = s1.D.attrs k := by
    intro r2 id2 hid2
    obtain ⟨t1, t2, hr1, hr2, -, hi2, hdep⟩ :=
      SetData_depends_fieldwise timeString D client client res r2 id id2 hid hid2
    rw [hrun1] at hr1
    cases hr1
    exact ⟨t2, hr2, hi2, hdep⟩
  refine ⟨s1, hrun1, ?_, ?_, ?_, ?_, ?_, ?_, ?_, ?_, ?_, ?_, ?_, ?_⟩
  · intro x
    obtain ⟨s2, hr2, -, hdep⟩ := key { res with Id := some x } x rfl
    refine ⟨s2, hr2, funext fun k => ?_⟩
    apply hdep <;> intro _ <;> rfl
  · intro x
    obtain ⟨s2, hr2, hi2, hdep⟩ := key { res with CompartmentId := x } id hid
    refine ⟨s2, hr2, hi2.trans hident1.symm, fun k hk => ?_⟩
    apply hdep <;> intro hk2 <;> first | rfl | exact absurd hk2 hk
  · intro x
    obtain ⟨s2, hr2, hi2, hdep⟩ := key { res with DisplayName := x } id hid
    refine ⟨s2, hr2, hi2.trans hident1.symm, fun k hk => ?_⟩
    apply hdep <;> intro hk2 <;> first | rfl | exact absurd hk2 hk
  · intro x
    obtain ⟨s2, hr2, hi2, hdep⟩ := key { res with DomainName := x } id hid
    refine ⟨s2, hr2, hi2.trans hident1.symm, fun k hk => ?_⟩
    apply hdep <;> intro hk2 <;> first | rfl | exact absurd hk2 hk
  · intro x
    obtain ⟨s2, hr2, hi2, hdep⟩ := key { res with Rtypes := x } id hid
    refine ⟨s2, hr2, hi2.trans hident1.symm, fun k hk => ?_⟩
    apply hdep <;> intro hk2 <;> first | rfl | exact absurd hk2 hk
  · intro x
    obtain ⟨s2, hr2, hi2, hdep⟩ := key { res with Self := x } id hid
    refine ⟨s2, hr2, hi2.trans hident1.symm, fun k hk => ?_⟩
    apply hdep <;> intro hk2 <;> first | rfl | exact absurd hk2 hk
  · intro x
    obtain ⟨s2, hr2, hi2, hdep⟩ := key { res with LifecycleState := x } id hid
    refine ⟨s2, hr2, hi2.trans hident1.symm, fun k hk => ?_⟩
    apply hdep <;> intro hk2 <;> first | rfl | exact absurd hk2 hk
  · intro x
    obtain ⟨s2, hr2, hi2, hdep⟩ := key { res with SteeringPolicyId := x } id hid
    refine ⟨s2, hr2, hi2.trans hident1.symm, fun k hk => ?_⟩
    apply hdep <;> intro hk2 <;> first | rfl | exact absurd hk2 hk
  · intro x
    obtain ⟨s2, hr2, hi2, hdep⟩ := key { res with TimeCreated := x } id hid
    refine ⟨s2, hr2, hi2.trans hident1.symm, fun k hk => ?_⟩
    apply hdep <;> intro hk2 <;> first | rfl | exact absurd hk2 hk
  · intro x
    obtain ⟨s2, hr2, hi2, hdep⟩ := key { res with ZoneId := x } id hid
    refine ⟨s2, hr2, hi2.trans hident1.symm, fun k hk => ?_⟩
    apply hdep <;> intro hk2 <;> first | rfl | exact absurd hk2 hk
  · intro x
    obtain ⟨s2, hr2, hi2, hdep⟩ := key { res with Etag := x } id hid
    refine ⟨s2, hr2, hi2.trans hident1.symm, funext fun k => ?_⟩
    apply hdep <;> intro _ <;> rfl
  · intro x
    obtain ⟨s2, hr2, hi2, hdep⟩ := key { res with OpcRequestId := x } id hid
    refine ⟨s2, hr2, hi2.trans hident1.symm, funext fun k => ?_⟩
    apply hdep <;> intro _ <;> rfl

/-- Witness of C17: `sampleResponse` over `sampleData`. -/
theorem SetData_one_attribute_per_field_witness :
    ∃ s1, SetData sampleTimeString
        { D := sampleData, Client := sampleClient, Res := some sampleResponse } = .ok (s1, none) ∧
      (∀ x, ∃ s2, SetData sampleTimeString
          { D := sampleData, Client := sampleClient,
            Res := some { sampleResponse with Id := some x } } = .ok (s2, none) ∧
        s2.D.attrs = s1.D.attrs) ∧
      (∀ x, ∃ s2, SetData sampleTimeString
          { D := sampleData, Client := sampleClient, Res := some { sampleResponse with CompartmentId := x } } = .ok (s2, none) ∧
        s2.D.Id = s1.D.Id ∧ ∀ k, k ≠ "compartment_id" → s2.D.attrs k = s1.D.attrs k) ∧
      (∀ x, ∃ s2, SetData sampleTimeString
          { D := sampleData, Client := sampleClient, Res := some { sampleResponse with DisplayName := x } } = .ok (s2, none) ∧
        s2.D.Id = s1.D.Id ∧ ∀ k, k ≠ "display_name" → s2.D.attrs k = s1.D.attrs k) ∧
      (∀ x, ∃ s2, SetData sampleTimeString
          { D := sampleData, Client := sampleClient, Res := some { sampleResponse with DomainName := x } } = .ok (s2, none) ∧
        s2.D.Id = s1.D.Id ∧ ∀ k, k ≠ "domain_name" → s2.D.attrs k = s1.D.attrs k) ∧
      (∀ x, ∃ s2, SetData sampleTimeString
          { D := sampleData, Client := sampleClient, Res := some { sampleResponse with Rtypes := x } } = .ok (s2, none) ∧
        s2.D.Id = s1.D.Id ∧ ∀ k, k ≠ "rtypes" → s2.D.attrs k = s1.D.attrs k) ∧
      (∀ x, ∃ s2, SetData sampleTimeString
          { D := sampleData, Client := sampleClient, Res := some { sampleResponse with Self := x } } = .ok (s2, none) ∧
        s2.D.Id = s1.D.Id ∧ ∀ k, k ≠ "self" → s2.D.attrs k = s1.D.attrs k) ∧
      (∀ x, ∃ s2, SetData sampleTimeString
          { D := sampleData, Client := sampleClient, Res := some { sampleResponse with LifecycleState := x } } = .ok (s2, none) ∧
        s2.D.Id = s1.D.Id ∧ ∀ k, k ≠ "state" → s2.D.attrs k = s1.D.attrs k) ∧
      (∀ x, ∃ s2, SetData sampleTimeString
          { D := sampleData, Client := sampleClient, Res := some { sampleResponse with SteeringPolicyId := x } } = .ok (s2, none) ∧
        s2.D.Id = s1.D.Id ∧ ∀ k, k ≠ "steering_policy_id" → s2.D.attrs k = s1.D.attrs k) ∧
      (∀ x, ∃ s2, SetData sampleTimeString
          { D := sampleData, Client := sampleClient, Res := some { sampleResponse with TimeCreated := x } } = .ok (s2, none) ∧
        s2.D.Id = s1.D.Id ∧ ∀ k, k ≠ "time_created" → s2.D.attrs k = s1.D.attrs k) ∧
      (∀ x, ∃ s2, SetData sampleTimeString
          { D := sampleData, Client := sampleClient, Res := some { sampleResponse with ZoneId := x } } = .ok (s2, none) ∧
        s2.D.Id = s1.D.Id ∧ ∀ k, k ≠ "zone_id" → s2.D.attrs k = s1.D.attrs k) ∧
      (∀ x, ∃ s2, SetData sampleTimeString
          { D := sampleData, Client := sampleClient, Res := some { sampleResponse with Etag := x } } = .ok (s2, none) ∧
        s2.D.Id = s1.D.Id ∧ s2.D.attrs = s1.D.attrs) ∧
      (∀ x, ∃ s2, SetData sampleTimeString
          { D := sampleData, Client := sampleClient, Res := some { sampleResponse with OpcRequestId := x } } = .ok (s2, none) ∧
        s2.D.Id = s1.D.Id ∧ s2.D.attrs = s1.D.attrs) :=
  SetData_one_attribute_per_field sampleTimeString sampleData sampleClient sampleResponse
    "ocid1.dnssteeringpolicyattachment.oc1..attachment" rfl

/-! ## `dbResponseFetchOperation` -/

/-- C11: `dbResponseFetchOperation` propagates the SDK error unchanged.  For
every client, resource id and retry policy it makes one `ListBackups` call,
whose request has `DatabaseId` equal to the resource id and
`RequestMetadata.RetryPolicy` equal to the retry policy (every other field is
nil), and it returns exactly the error of that call, nil exactly when the call
returned nil. -/
theorem dbResponseFetchOperation_propagates_error (client : OracleClients)
    (resourceId : Option String) (retryPolicy : Option RetryPolicy) :
    ∃ request : ListBackupsRequest,
      request.DatabaseId = resourceId ∧
      request.RequestMetadata.RetryPolicy = retryPolicy ∧
      request.CompartmentId = none ∧ request.Limit = none ∧ request.Page = none ∧
      request.OpcRequestId = none ∧
      (dbResponseFetchOperation client resourceId retryPolicy).1.databaseClient.calls =
        client.databaseClient.calls ++ [request] ∧
      (dbResponseFetchOperation client resourceId retryPolicy).2 =
        (client.databaseClient.respond client.databaseClient.calls request).2 ∧
      ((dbResponseFetchOperation client resourceId retryPolicy).2 = none ↔
        (client.databaseClient.respond client.databaseClient.calls request).2 = none) :=
  ⟨_, rfl, rfl, rfl, rfl, rfl, rfl, rfl, rfl, Iff.rfl⟩

/-! ## The expected lifecycle state -/

/-- C18: the state values the tests expect for the DB system resource are the
same literal.  `DatabaseLifecycleStateAvailable`,
`DbSystemLifecycleStateAvailable` and `DbHomeSummaryLifecycleStateAvailable`
are all the string `AVAILABLE`, so each test, whether it passes the Database
constant (from-backup, basic, Exadata) or the DbSystem constant (allBM, allVM),
checks `state` against the same string. -/
theorem expected_state_is_one_literal :
    DatabaseLifecycleStateAvailable = "AVAILABLE" ∧
    DbSystemLifecycleStateAvailable = "AVAILABLE" ∧
    DbHomeSummaryLifecycleStateAvailable = "AVAILABLE" ∧
    DatabaseLifecycleStateAvailable = DbSystemLifecycleStateAvailable ∧
    (∀ t : DBSystemTest,
      t.expectedState = DbSystemLifecycleStateAvailable ∧
      t.expectedState = DatabaseLifecycleStateAvailable ∧
      t.expectedState = "AVAILABLE") := by
  refine ⟨rfl, rfl, rfl, rfl, fun t => ?_⟩
  cases t <;> exact ⟨rfl, rfl, rfl⟩

/-! ## `SetData`: unconditional writes, no response, faults, idempotence -/

/-- C21: `SetData` writes `rtypes` and `state` unconditionally.  For a non-nil
response with `Id` present, after `SetData` `rtypes` holds the response
`Rtypes` and `state` holds the response `LifecycleState`, whatever the two
attributes held before; in particular an empty (or nil) `Rtypes` leaves
`rtypes` the empty list and an empty `LifecycleState` leaves `state` the empty
string. -/
theorem SetData_overwrites_rtypes_and_state (timeString : SDKTime → String)
    (s : DnsSteeringPolicyAttachmentDataSourceCrud) (res : GetSteeringPolicyAttachmentResponse)
    (id : String) (h : s.Res = some res) (hid : res.Id = some id) :
    ∃ s', SetData timeString s = .ok (s', none) ∧
      s'.D.attrs "rtypes" = some (Value.strList res.Rtypes) ∧
      s'.D.attrs "state" = some (Value.str res.LifecycleState) ∧
      (res.Rtypes = [] → s'.D.attrs "rtypes" = some (Value.strList [])) ∧
      (res.LifecycleState = "" → s'.D.attrs "state" = some (Value.str "")) := by
  obtain ⟨s', hrun, -, -, -, hattrs⟩ := SetData_of_id timeString s res id h hid
  have hr : s'.D.attrs "rtypes" = some (Value.strList res.Rtypes) := by
    rw [hattrs]; simp
  have hs : s'.D.attrs "state" = some (Value.str res.LifecycleState) := by
    rw [hattrs]; simp
  exact ⟨s', hrun, hr, hs, fun he => by rw [hr, he], fun he => by rw [hs, he]⟩

/-- Witness of C21: a response with no record types and an empty lifecycle
state, over a state whose `state` was `CREATING` and whose `rtypes` held one
record type. -/
theorem SetData_overwrites_rtypes_and_state_witness :
    (sampleData.Set "rtypes" (Value.strList ["A"])).attrs "state" =
      some (Value.str "CREATING") ∧
    (sampleData.Set "rtypes" (Value.strList ["A"])).attrs "rtypes" =
      some (Value.strList ["A"]) ∧
    ∃ s', SetData sampleTimeString
        { D := sampleData.Set "rtypes" (Value.strList ["A"]), Client := sampleClient,
          Res := some { sampleResponse with Rtypes := [], LifecycleState := "" } } =
        .ok (s', none) ∧
      s'.D.attrs "rtypes" = some (Value.strList []) ∧
      s'.D.attrs "state" = some (Value.str "") ∧
      (([] : List String) = [] → s'.D.attrs "rtypes" = some (Value.strList [])) ∧
      ("" = "" → s'.D.attrs "state" = some (Value.str "")) :=
  ⟨by decide, by decide,
    SetData_overwrites_rtypes_and_state sampleTimeString
      { D := sampleData.Set "rtypes" (Value.strList ["A"]), Client := sampleClient,
        Res := some { sampleResponse with Rtypes := [], LifecycleState := "" } }
      { sampleResponse with Rtypes := [], LifecycleState := "" }
      "ocid1.dnssteeringpolicyattachment.oc1..attachment" rfl rfl⟩

/-- C22: `SetData` with no response is a no-op.  When `s.Res` is nil,
`SetData` returns nil and the crud struct, with the whole Terraform state and
its resource ID, is as before. -/
theorem SetData_without_response_is_noop (timeString : SDKTime → String)
    (s : DnsSteeringPolicyAttachmentDataSourceCrud) (h : s.Res = none) :
    SetData timeString s = .ok (s, none) ∧
    ∀ s' err, SetData timeString s = .ok (s', err) →
      err = none ∧ s'.D = s.D ∧ s'.D.Id = s.D.Id ∧ s'.D.attrs = s.D.attrs := by
  have hrun := SetData_of_nil timeString s h
  refine ⟨hrun, fun s' err hs => ?_⟩
  rw [hrun] at hs
  cases hs
  exact ⟨rfl, rfl, rfl, rfl⟩

/-- Witness of C22: the sample state with no response. -/
theorem SetData_without_response_is_noop_witness :
    SetData sampleTimeString { D := sampleData, Client := sampleClient, Res := none } =
      .ok ({ D := sampleData, Client := sampleClient, Res := none }, none) ∧
    ∀ s' err,
      SetData sampleTimeString { D := sampleData, Client := sampleClient, Res := none } =
        .ok (s', err) →
      err = none ∧ s'.D = sampleData ∧ s'.D.Id = sampleData.Id ∧
        s'.D.attrs = sampleData.attrs :=
  SetData_without_response_is_noop sampleTimeString
    { D := sampleData, Client := sampleClient, Res := none } rfl

/-- C23: `SetData` is safe exactly on responses that carry an `Id`.  For a
non-nil response, `SetData` returns (and then returns nil) if and only if `Id`
is present, whatever the other fields are; when `Id` is nil it faults with a
nil dereference instead of returning an error. -/
theorem SetData_faults_exactly_without_id (timeString : SDKTime → String)
    (s : DnsSteeringPolicyAttachmentDataSourceCrud) (res : GetSteeringPolicyAttachmentResponse)
    (h : s.Res = some res) :
    (res.Id ≠ none → ∃ s', SetData timeString s = .ok (s', none)) ∧
    (res.Id = none → SetData timeString s = .error Fault.nilDereference) ∧
    ((∃ s' err, SetData timeString s = .ok (s', err)) ↔ res.Id ≠ none) := by
  have hsome : res.Id ≠ none → ∃ s', SetData timeString s = .ok (s', none) := by
    intro hne
    obtain ⟨id, hid⟩ := Option.ne_none_iff_exists'.mp hne
    obtain ⟨s', hrun, -⟩ := SetData_of_id timeString s res id h hid
    exact ⟨s', hrun⟩
  refine ⟨hsome, SetData_of_nil_id timeString s res h, ?_, ?_⟩
  · rintro ⟨s', err, hrun⟩ hnil
    rw [SetData_of_nil_id timeString s res h hnil] at hrun
    cases hrun
  · intro hne
    obtain ⟨s', hrun⟩ := hsome hne
    exact ⟨s', none, hrun⟩

/-- Witness of C23: a response that carries nothing but an `Id`, and the same
response without it. -/
theorem SetData_faults_exactly_without_id_witness :
    ((some "ocid1.attachment" : Option String) ≠ none →
      ∃ s', SetData sampleTimeString
        { D := sampleData, Client := sampleClient,
          Res := some
            { Id := some "ocid1.attachment", CompartmentId := none, DisplayName := none,
              DomainName := none, Rtypes := [], Self := none, LifecycleState := "",
              SteeringPolicyId := none, TimeCreated := none, ZoneId := none, Etag := none,
              OpcRequestId := none } } = .ok (s', none)) ∧
    SetData sampleTimeString
      { D := sampleData, Client := sampleClient,
        Res := some { sampleResponse with Id := none } } = .error Fault.nilDereference :=
  ⟨(SetData_faults_exactly_without_id sampleTimeString
      { D := sampleData, Client := sampleClient,
        Res := some
          { Id := some "ocid1.attachment", CompartmentId := none, DisplayName := none,
            DomainName := none, Rtypes := [], Self := none, LifecycleState := "",
            SteeringPolicyId := none, TimeCreated := none, ZoneId := none, Etag := none,
            OpcRequestId := none } } _ rfl).1,
    (SetData_faults_exactly_without_id sampleTimeString
      { D := sampleData, Client := sampleClient,
        Res := some { sampleResponse with Id := none } } _ rfl).2.1 rfl⟩

/-- C24: `SetData` is idempotent.  For every prior state and every response
that is nil, or non-nil with `Id` present, `SetData` returns nil, and `SetData`
applied again with the same `s.Res` returns nil and leaves the crud struct,
with the whole Terraform state, as the first application left it. -/
theorem SetData_idempotent (timeString : SDKTime → String)
    (s : DnsSteeringPolicyAttachmentDataSourceCrud)
    (h : s.Res = none ∨ ∃ res id, s.Res = some res ∧ res.Id = some id) :
    ∃ s1, SetData timeString s = .ok (s1, none) ∧
      s1.Res = s.Res ∧
      SetData timeString s1 = .ok (s1, none) := by
  rcases h with hnil | ⟨res, id, hres, hid⟩
  · exact ⟨s, SetData_of_nil timeString s hnil, rfl, SetData_of_nil timeString s hnil⟩
  · obtain ⟨s1, hrun1, hc1, hr1, hi1, ha1⟩ := SetData_of_id timeString s res id hres hid
    obtain ⟨s2, hrun2, hc2, hr2, hi2, ha2⟩ :=
      SetData_of_id timeString s1 res id (hr1.trans hres) hid
    have hattrs : s2.D.attrs = s1.D.attrs := by
      funext k
      rw [ha2 k]
      by_cases e1 : k = "compartment_id"
      · subst e1
        rw [ha1]
        cases res.CompartmentId <;> simp
      by_cases e2 : k = "display_name"
      · subst e2
        rw [ha1]
        cases res.DisplayName <;> simp
      by_cases e3 : k = "domain_name"
      · subst e3
        rw [ha1]
        cases res.DomainName <;> simp
      by_cases e4 : k = "rtypes"
      · subst e4
        rw [ha1]
        simp
      by_cases e5 : k = "self"
      · subst e5
        rw [ha1]
        cases res.Self <;> simp
      by_cases e6 : k = "state"
      · subst e6
        rw [ha1]
        simp
      by_cases e7 : k = "steering_policy_id"
      · subst e7
        rw [ha1]
        cases res.SteeringPolicyId <;> simp
      by_cases e8 : k = "time_created"
      · subst e8
        rw [ha1]
        cases res.TimeCreated <;> simp
      by_cases e9 : k = "zone_id"
      · subst e9
        rw [ha1]
        cases res.ZoneId <;> simp
      simp [e1, e2, e3, e4, e5, e6, e7, e8, e9]
    have heq : s2 = s1 := by
      obtain ⟨⟨i1, a1⟩, c1, r1⟩ := s1
      obtain ⟨⟨i2, a2⟩, c2, r2⟩ := s2
      simp only at hc2 hr2 hi1 hi2 hattrs
      subst hc2 hr2 hattrs
      rw [hi1, hi2]
    rw [heq] at hrun2
    exact ⟨s1, hrun1, hr1, hrun2⟩

/-- Witness of C24: `sampleResponse` over `sampleData`. -/
theorem SetData_idempotent_witness :
    ∃ s1, SetData sampleTimeString
        { D := sampleData, Client := sampleClient, Res := some sampleResponse } = .ok (s1, none) ∧
      s1.Res = some sampleResponse ∧
      SetData sampleTimeString s1 = .ok (s1, none) :=
  SetData_idempotent sampleTimeString
    { D := sampleData, Client := sampleClient, Res := some sampleResponse }
    (Or.inr ⟨sampleResponse, "ocid1.dnssteeringpolicyattachment.oc1..attachment", rfl, rfl⟩)

/-! ## `dbWaitCondition`: empty lists, other responses, the first backup -/

/-- C25: `dbWaitCondition` keeps waiting while no backup exists.  For every
`ListBackupsResponse` whose `Items` list is empty (the nil slice included) it
returns true; the list is indexed only under the length check, which fails
here. -/
theorem dbWaitCondition_waits_on_empty_list (listBackupResponse : ListBackupsResponse)
    (err : Option GoError) (attempt : Nat) (h : listBackupResponse.Items = []) :
    dbWaitCondition
      { Response := OCIResponse.ListBackupsResponse listBackupResponse, Error := err,
        AttemptNumber := attempt } = true ∧
    ¬ listBackupResponse.Items.length > 0 := by
  obtain ⟨items, page, req⟩ := listBackupResponse
  simp only at h
  subst h
  simp [dbWaitCondition]

/-- Witness of C25: a response with no backup. -/
theorem dbWaitCondition_waits_on_empty_list_witness :
    dbWaitCondition
      { Response := OCIResponse.ListBackupsResponse
          { Items := [], OpcNextPage := none, OpcRequestId := some "request-1" },
        Error := none, AttemptNumber := 1 } = true ∧
    ¬ ([] : List BackupSummary).length > 0 :=
  dbWaitCondition_waits_on_empty_list
    { Items := [], OpcNextPage := none, OpcRequestId := some "request-1" } none 1 rfl

/-- C26: `dbWaitCondition` ends the wait on any response that is not a
`ListBackupsResponse` value.  For every operation response whose `Response` is
of another dynamic type it returns false, whatever the response contains; so
it does for a nil `Response`, for a pointer to a `ListBackupsResponse` and for
a value of another response type. -/
theorem dbWaitCondition_false_on_other_response (response : OCIOperationResponse)
    (h : ∀ listBackupResponse,
      response.Response ≠ OCIResponse.ListBackupsResponse listBackupResponse) :
    dbWaitCondition response = false ∧
    (∀ err attempt,
      dbWaitCondition { Response := OCIResponse.nil, Error := err, AttemptNumber := attempt } =
        false) ∧
    (∀ pointer err attempt,
      dbWaitCondition
        { Response := OCIResponse.ListBackupsResponsePtr pointer, Error := err,
          AttemptNumber := attempt } = false) ∧
    (∀ typeName err attempt,
      dbWaitCondition
        { Response := OCIResponse.other typeName, Error := err, AttemptNumber := attempt } =
        false) := by
  refine ⟨?_, fun _ _ => rfl, fun _ _ _ => rfl, fun _ _ _ => rfl⟩
  obtain ⟨body, err, attempt⟩ := response
  cases body with
  | nil => rfl
  | ListBackupsResponse r => exact absurd rfl (h r)
  | ListBackupsResponsePtr r => rfl
  | other name => rfl

/-- Witness of C26: a pointer to a response whose first backup is still being
created. -/
theorem dbWaitCondition_false_on_other_response_witness :
    dbWaitCondition
      { Response := OCIResponse.ListBackupsResponsePtr
          (some
            { Items :=
                [{ Id := some "b1", DatabaseId := some "db", DisplayName := none,
                   LifecycleState := "CREATING" }],
              OpcNextPage := none, OpcRequestId := none }),
        Error := none, AttemptNumber := 1 } = false ∧
    (∀ err attempt,
      dbWaitCondition { Response := OCIResponse.nil, Error := err, AttemptNumber := attempt } =
        false) ∧
    (∀ pointer err attempt,
      dbWaitCondition
        { Response := OCIResponse.ListBackupsResponsePtr pointer, Error := err,
          AttemptNumber := attempt } = false) ∧
    (∀ typeName err attempt,
      dbWaitCondition
        { Response := OCIResponse.other typeName, Error := err, AttemptNumber := attempt } =
        false) :=
  dbWaitCondition_false_on_other_response
    { Response := OCIResponse.ListBackupsResponsePtr
        (some
          { Items :=
              [{ Id := some "b1", DatabaseId := some "db", DisplayName := none,
                 LifecycleState := "CREATING" }],
            OpcNextPage := none, OpcRequestId := none }),
      Error := none, AttemptNumber := 1 }
    (fun _ hne => by cases hne)

/-- C27: `dbWaitCondition` looks only at the first backup.  Two
`ListBackupsResponse` values with non-empty `Items` whose first items have the
same `LifecycleState` give the same result, whatever the remaining items (and
the errors and attempt numbers) are; and when the first item is not `ACTIVE`
the result is true, even if a later item is `ACTIVE`. -/
theorem dbWaitCondition_looks_at_first_backup (r1 r2 : ListBackupsResponse)
    (first1 first2 : BackupSummary) (rest1 rest2 : List BackupSummary)
    (err1 err2 : Option GoError) (attempt1 attempt2 : Nat)
    (h1 : r1.Items = first1 :: rest1) (h2 : r2.Items = first2 :: rest2)
    (hstate : first1.LifecycleState = first2.LifecycleState) :
    dbWaitCondition
      { Response := OCIResponse.ListBackupsResponse r1, Error := err1,
        AttemptNumber := attempt1 } =
    dbWaitCondition
      { Response := OCIResponse.ListBackupsResponse r2, Error := err2,
        AttemptNumber := attempt2 } ∧
    (first1.LifecycleState ≠ "ACTIVE" →
      dbWaitCondition
        { Response := OCIResponse.ListBackupsResponse r1, Error := err1,
          AttemptNumber := attempt1 } = true) := by
  obtain ⟨items1, page1, req1⟩ := r1
  obtain ⟨items2, page2, req2⟩ := r2
  simp only at h1 h2
  subst h1 h2
  simp [dbWaitCondition, BackupSummaryLifecycleStateActive, hstate]

/-- Witness of C27: a backup being created followed by an active one, against
the same first backup on its own. -/
theorem dbWaitCondition_looks_at_first_backup_witness :
    dbWaitCondition
      { Response := OCIResponse.ListBackupsResponse
          { Items :=
              [{ Id := some "b1", DatabaseId := some "db", DisplayName := none,
                 LifecycleState := "CREATING" },
               { Id := some "b0", DatabaseId := some "db", DisplayName := none,
                 LifecycleState := "ACTIVE" }],
            OpcNextPage := none, OpcRequestId := none },
        Error := none, AttemptNumber := 1 } =
    dbWaitCondition
      { Response := OCIResponse.ListBackupsResponse
          { Items :=
              [{ Id := some "b1", DatabaseId := some "db", DisplayName := none,
                 LifecycleState := "CREATING" }],
            OpcNextPage := none, OpcRequestId := none },
        Error := none, AttemptNumber := 2 } ∧
    ("CREATING" ≠ "ACTIVE" →
      dbWaitCondition
        { Response := OCIResponse.ListBackupsResponse
            { Items :=
                [{ Id := some "b1", DatabaseId := some "db", DisplayName := none,
                   LifecycleState := "CREATING" },
                 { Id := some "b0", DatabaseId := some "db", DisplayName := none,
                   LifecycleState := "ACTIVE" }],
              OpcNextPage := none, OpcRequestId := none },
          Error := none, AttemptNumber := 1 } = true) :=
  dbWaitCondition_looks_at_first_backup
    { Items :=
        [{ Id := some "b1", DatabaseId := some "db", DisplayName := none,
           LifecycleState := "CREATING" },
         { Id := some "b0", DatabaseId := some "db", DisplayName := none,
           LifecycleState := "ACTIVE" }],
      OpcNextPage := none, OpcRequestId := none }
    { Items :=
        [{ Id := some "b1", DatabaseId := some "db", DisplayName := none,
           LifecycleState := "CREATING" }],
      OpcNextPage := none, OpcRequestId := none }
    { Id := some "b1", DatabaseId := some "db", DisplayName := none,
      LifecycleState := "CREATING" }
    { Id := some "b1", DatabaseId := some "db", DisplayName := none,
      LifecycleState := "CREATING" }
    [{ Id := some "b0", DatabaseId := some "db", DisplayName := none,
       LifecycleState := "ACTIVE" }]
    [] none none 1 2 rfl rfl rfl

/-! ## Suppressed tests -/

/-- `strings.Contains` is the substring test: `substr` occurs in `s` exactly
when `s` is some text, then `substr`, then some text. -/
theorem strings.Contains_iff (s substr : String) :
    strings.Contains s substr = true ↔ ∃ a b : String, s = a ++ substr ++ b := by
  unfold strings.Contains
  rw [List.any_eq_true]
  constructor
  · rintro ⟨t, ht, hp⟩
    rw [List.mem_tails] at ht
    rw [ List.isPrefixOf_iff_prefix] at hp
    obtain ⟨a, ha⟩ := ht
    obtain ⟨b, hb⟩ := hp
    refine ⟨⟨a⟩, ⟨b⟩, ?_⟩
    apply String.ext
    simp only [String.data_append]
    rw [← ha, ← hb, List.append_assoc]
  · rintro ⟨a, b, rfl⟩
    refine ⟨substr.data ++ b.data, ?_, ?_⟩
    · rw [List.mem_tails]
      exact ⟨a.data, by simp [String.data_append, List.append_assoc]⟩
    · rw [ List.isPrefixOf_iff_prefix]
      exact List.prefix_append _ _

/-- C28: each test of `ResourceDatabaseDBSystemTestSuite` is skipped by its
guard if and only if the `suppressed_tests` setting contains its key as a
substring: `DBSystem_basic` for the basic test, `DBSystem_allBM`,
`DBSystem_allVM` and `DBSystem_Exadata` for the other three;
`TestAccResourceDatabaseDBSystemFromBackup` looks for `DBSystem_basic` too, so
it is skipped exactly when the basic test is; with an empty setting no test is
skipped. -/
theorem tests_skipped_iff_key_in_setting (suppressed_tests : String) :
    (DBSystemTest.skip suppressed_tests .TestAccResourceDatabaseDBSystem_basic ≠ none ↔
      ∃ a b : String, suppressed_tests = a ++ "DBSystem_basic" ++ b) ∧
    (DBSystemTest.skip suppressed_tests .TestAccResourceDatabaseDBSystem_allBM ≠ none ↔
      ∃ a b : String, suppressed_tests = a ++ "DBSystem_allBM" ++ b) ∧
    (DBSystemTest.skip suppressed_tests .TestAccResourceDatabaseDBSystem_allVM ≠ none ↔
      ∃ a b : String, suppressed_tests = a ++ "DBSystem_allVM" ++ b) ∧
    (DBSystemTest.skip suppressed_tests .TestAccResourceDatabaseDBSystem_Exadata ≠ none ↔
      ∃ a b : String, suppressed_tests = a ++ "DBSystem_Exadata" ++ b) ∧
    (DBSystemTest.skip suppressed_tests .TestAccResourceDatabaseDBSystemFromBackup ≠ none ↔
      ∃ a b : String, suppressed_tests = a ++ "DBSystem_basic" ++ b) ∧
    (DBSystemTest.skip suppressed_tests .TestAccResourceDatabaseDBSystemFromBackup ≠ none ↔
      DBSystemTest.skip suppressed_tests .TestAccResourceDatabaseDBSystem_basic ≠ none) ∧
    (∀ t : DBSystemTest, DBSystemTest.skip "" t = none) := by
  have key : ∀ (k m : String),
      ((if strings.Contains suppressed_tests k then some m else none) ≠ none ↔
        ∃ a b : String, suppressed_tests = a ++ k ++ b) := by
    intro k m
    rw [← strings.Contains_iff]
    cases strings.Contains suppressed_tests k <;> simp
  refine ⟨key _ _, key _ _, key _ _, key _ _, key _ _, Iff.rfl, fun t => ?_⟩
  cases t <;> decide

end OciProvider
